import Mathlib

/-!
Verification of the odds-computation pipeline of the Super Bowl squares
repository (squareOddsService.ts, the realtime odds engine, the live snapshot
fetcher and the commentary sentiment scorer).

Modelling conventions used throughout this development:

* JavaScript `number` values are modelled by `ℚ` (exact rational arithmetic,
  the usual idealization of IEEE-754 doubles; the repository's own tolerances,
  1e-6 and 1e-9, exist only to absorb float drift and are trivially met by the
  exact model).  32-bit integer operations (`Math.imul`, `^`, `>>>`, `|`) are
  modelled on `ℕ` with explicit `% 2^32`.
* `Math.exp`, `Math.log`, `Math.cos`, `Math.sqrt` and `Math.PI` have no exact
  rational counterpart; they are abstracted into a `JsMath` record of rational
  functions that is threaded through every definition that uses them.  Every
  theorem below holds for an arbitrary `JsMath`, so in particular for the
  rational shadows of the real float routines.
* `DigitProbabilityMatrix` (`number[][]`, always 10x10 in the source) is
  modelled as `Fin 10 → Fin 10 → ℚ`; the row/column label arrays coming from
  the UI are kept as genuine `List ℚ` because the source runtime-checks their
  length and integrality.
* Functions that `throw` are modelled in `Except String`; `null` is `Option`.
* `new Date().toISOString()` is an effect: functions that call it take the
  produced timestamp as an explicit `now : String` argument.
-/

namespace Squares

/-- JavaScript `Math.min(max, Math.max(min, value))`, the `clamp` helper that
appears identically in squareOddsService.ts, the realtime engine and the live
fetcher. -/
def clamp (value minValue maxValue : ℚ) : ℚ :=
  min maxValue (max minValue value)

/-- JavaScript `Math.round` (round half toward positive infinity). -/
def jsRound (x : ℚ) : ℤ :=
  Int.floor (x + 1 / 2)

/-- Abstraction of the transcendental `Math` routines used by the pipeline. -/
structure JsMath where
  exp : ℚ → ℚ
  log : ℚ → ℚ
  cos : ℚ → ℚ
  sqrt : ℚ → ℚ
  pi : ℚ

/-- A `DigitProbabilityMatrix` (`number[][]`, 10x10 everywhere in the source). -/
abbrev DigitProbabilityMatrix := Fin 10 → Fin 10 → ℚ

/-- Sum of all 100 cells of a 10x10 matrix. -/
def matrixSum (m : DigitProbabilityMatrix) : ℚ :=
  ∑ r : Fin 10, ∑ c : Fin 10, m r c

/-- `createZeroMatrix` of squareOddsService.ts / the realtime engine. -/
def createZeroMatrix : DigitProbabilityMatrix := fun _ _ => 0

/-- `createUniformDigitMatrix` / the uniform fallback built inline by
`normalizeMatrix` in the realtime engine (every entry `1 / 100`). -/
def createUniformDigitMatrix : DigitProbabilityMatrix := fun _ _ => 1 / 100

/-- `createUniformDigitDist` (every entry `1 / DIGIT_COUNT`). -/
def createUniformDigitDist : Fin 10 → ℚ := fun _ => 1 / 10

/-- `n % 10` as an index, for indexing a 10-entry array by a `ℕ`. -/
def natDigit (n : ℕ) : Fin 10 :=
  ⟨n % 10, Nat.mod_lt _ (by norm_num)⟩

lemma toDigit_aux (score : ℤ) : ((score.tmod 10 + 10).tmod 10).toNat < 10 := by
  have h := Int.tmod_lt_of_pos (score.tmod 10 + 10) (b := 10) (by norm_num)
  omega

/-- `toDigit` of squareOddsService.ts: `((score % 10) + 10) % 10`, with the
JavaScript `%` (truncated remainder, `Int.tmod`). -/
def toDigit (score : ℤ) : Fin 10 :=
  ⟨((score.tmod 10 + 10).tmod 10).toNat, toDigit_aux score⟩

namespace OddsService

/-- `normalizeVector` of squareOddsService.ts. -/
def normalizeVector (values : Fin 10 → ℚ) : Fin 10 → ℚ :=
  let total := ∑ i : Fin 10, max (values i) 0
  if total ≤ 0 then createUniformDigitDist
  else fun i => max (values i) 0 / total

/-- `normalizeMatrix` of squareOddsService.ts (lines 132-147): sum the
nonnegative parts of all cells; a non-finite or non-positive total falls back
to the uniform `1/100` matrix, otherwise each clipped cell is divided by the
total.  (`Number.isFinite` is vacuous over `ℚ`.) -/
def normalizeMatrix (matrix : DigitProbabilityMatrix) : DigitProbabilityMatrix :=
  let total := ∑ r : Fin 10, ∑ c : Fin 10, max (matrix r c) 0
  if total ≤ 0 then createUniformDigitMatrix
  else fun r c => max (matrix r c) 0 / total

/-- `outerProduct` of squareOddsService.ts. -/
def outerProduct (a b : Fin 10 → ℚ) : DigitProbabilityMatrix :=
  normalizeMatrix (fun r c => a r * b c)

end OddsService

namespace Realtime

/-- `normalizeMatrix` of the realtime engine (identical arithmetic to the
squareOddsService.ts version; the source computes the total with
`flat().reduce` treating non-finite entries as `0`, which is vacuous over
`ℚ`). -/
def normalizeMatrix (matrix : DigitProbabilityMatrix) : DigitProbabilityMatrix :=
  let total := ∑ r : Fin 10, ∑ c : Fin 10, max 0 (matrix r c)
  if total ≤ 0 then createUniformDigitMatrix
  else fun r c => max (matrix r c) 0 / total

end Realtime

lemma max_comm_zero (x : ℚ) : max 0 x = max x 0 := max_comm 0 x

lemma realtime_normalizeMatrix_eq (m : DigitProbabilityMatrix) :
    Realtime.normalizeMatrix m = OddsService.normalizeMatrix m := by
  unfold Realtime.normalizeMatrix OddsService.normalizeMatrix
  simp only [max_comm_zero]

lemma normalizeMatrix_nonneg (m : DigitProbabilityMatrix) (r c : Fin 10) :
    0 ≤ OddsService.normalizeMatrix m r c := by
  unfold OddsService.normalizeMatrix
  by_cases h : (∑ x : Fin 10, ∑ y : Fin 10, max (m x y) 0) ≤ 0
  · simp [h, createUniformDigitMatrix]
  · simp only [h, if_false]
    have htot : (0 : ℚ) < ∑ x : Fin 10, ∑ y : Fin 10, max (m x y) 0 := lt_of_not_ge h
    exact div_nonneg (le_max_right _ _) (le_of_lt htot)

lemma normalizeMatrix_sum (m : DigitProbabilityMatrix) :
    matrixSum (OddsService.normalizeMatrix m) = 1 := by
  unfold matrixSum OddsService.normalizeMatrix
  by_cases h : (∑ x : Fin 10, ∑ y : Fin 10, max (m x y) 0) ≤ 0
  · simp [h, createUniformDigitMatrix]
    norm_num
  · simp only [h, if_false]
    have htot : (0 : ℚ) < ∑ x : Fin 10, ∑ y : Fin 10, max (m x y) 0 := lt_of_not_ge h
    have hne : (∑ x : Fin 10, ∑ y : Fin 10, max (m x y) 0) ≠ 0 := ne_of_gt htot
    simp only [← Finset.sum_div]
    exact div_self hne

lemma normalizeMatrix_degenerate (m : DigitProbabilityMatrix)
    (h : ∀ r c, m r c ≤ 0) :
    OddsService.normalizeMatrix m = createUniformDigitMatrix := by
  unfold OddsService.normalizeMatrix
  have hz : (∑ x : Fin 10, ∑ y : Fin 10, max (m x y) 0) = 0 := by
    apply Finset.sum_eq_zero
    intro r _
    apply Finset.sum_eq_zero
    intro c _
    exact max_eq_right (h r c) |>.trans rfl
  simp [hz]

/-- Claim C5: `normalizeMatrix` (both the squareOddsService.ts copy and the
realtime-engine copy) returns a matrix whose entries are all nonnegative and
whose total is `1` (hence within the claimed `1e-9` tolerance); and whenever
every input entry is non-positive (the all-zero / degenerate case — `NaN`
totals have no rational counterpart and are subsumed by the same fallback
branch), the result is the uniform matrix with every entry `1/100`. -/
theorem normalizeMatrix_spec (m : DigitProbabilityMatrix) :
    (∀ r c, 0 ≤ OddsService.normalizeMatrix m r c) ∧
    |matrixSum (OddsService.normalizeMatrix m) - 1| ≤ 1 / 1000000000 ∧
    ((∀ r c, m r c ≤ 0) → OddsService.normalizeMatrix m = createUniformDigitMatrix) ∧
    (∀ r c, 0 ≤ Realtime.normalizeMatrix m r c) ∧
    |matrixSum (Realtime.normalizeMatrix m) - 1| ≤ 1 / 1000000000 ∧
    ((∀ r c, m r c ≤ 0) → Realtime.normalizeMatrix m = createUniformDigitMatrix) := by
  refine ⟨normalizeMatrix_nonneg m, ?_, normalizeMatrix_degenerate m, ?_, ?_, ?_⟩
  · rw [normalizeMatrix_sum m]
    norm_num
  · intro r c
    rw [realtime_normalizeMatrix_eq]
    exact normalizeMatrix_nonneg m r c
  · rw [realtime_normalizeMatrix_eq, normalizeMatrix_sum m]
    norm_num
  · intro h
    rw [realtime_normalizeMatrix_eq]
    exact normalizeMatrix_degenerate m h

/-- Witness for C5: the theorem applied to the all-zero matrix, with the
degenerate hypothesis discharged concretely. -/
theorem normalizeMatrix_spec_witness :
    OddsService.normalizeMatrix createZeroMatrix = createUniformDigitMatrix ∧
    (0 : ℚ) ≤ OddsService.normalizeMatrix createZeroMatrix 0 0 := by
  obtain ⟨h1, _, h3, _⟩ := normalizeMatrix_spec createZeroMatrix
  exact ⟨h3 (fun r c => le_refl 0), h1 0 0⟩

/-- A board label entry is accepted by the source when
`Number.isInteger(d) && d >= 0 && d <= 9`. -/
def isDigitLabel (q : ℚ) : Prop :=
  q.den = 1 ∧ 0 ≤ q ∧ q ≤ 9

instance : DecidablePred isDigitLabel := fun q => by
  unfold isDigitLabel; infer_instance

/-- The digit index denoted by a (valid) label entry; for a valid label this is
exactly its integer value, used by the source to index the digit matrix. -/
def labelDigit (q : ℚ) : Fin 10 :=
  natDigit q.num.toNat

/-- The label arrays the UI must hand over: two length-10 arrays of integer
digits (this is the validity domain enforced by `mapDigitMatrixToBoard`). -/
def validLabels (ls : List ℚ) : Prop :=
  ls.length = 10 ∧ ∀ q ∈ ls, isDigitLabel q

instance : DecidablePred validLabels := fun ls => by
  unfold validLabels; infer_instance

/-- The column-label checks performed by the inner `Array.from` loop of
`mapDigitMatrixToBoard` (run in index order, throwing on the first bad one). -/
def checkColLabels (colMsg : String) : List ℚ → Except String Unit
  | [] => Except.ok ()
  | q :: rest =>
    if isDigitLabel q then checkColLabels colMsg rest else Except.error colMsg

/-- The interleaved label checks of `mapDigitMatrixToBoard`: for each row index
the row label is checked, then every column label is re-checked (the inner
`Array.from` body runs once per row), mirroring the source's throw order. -/
def checkRowThenCols (rowMsg colMsg : String) (colLabels : List ℚ) :
    List ℚ → Except String Unit
  | [] => Except.ok ()
  | q :: rest =>
    if isDigitLabel q then
      match checkColLabels colMsg colLabels with
      | Except.ok _ => checkRowThenCols rowMsg colMsg colLabels rest
      | Except.error e => Except.error e
    else Except.error rowMsg

/-- Common body of the two `mapDigitMatrixToBoard` copies (they differ only in
their error strings): validate the two label arrays, then produce the board
whose `(r, c)` cell is `digitMatrix[rowLabels[r]][colLabels[c]] * 100`. -/
def mapDigitCore (lenMsg rowMsg colMsg : String) (digitMatrix : DigitProbabilityMatrix)
    (rowLabels colLabels : List ℚ) : Except String DigitProbabilityMatrix :=
  if rowLabels.length = 10 ∧ colLabels.length = 10 then
    match checkRowThenCols rowMsg colMsg colLabels rowLabels with
    | Except.error e => Except.error e
    | Except.ok _ =>
      Except.ok fun r c =>
        digitMatrix (labelDigit (rowLabels.getD r.val 0))
          (labelDigit (colLabels.getD c.val 0)) * 100
  else Except.error lenMsg

namespace OddsService

/-- `mapDigitMatrixToBoard` of squareOddsService.ts (lines 943-964). -/
def mapDigitMatrixToBoard (digitMatrix : DigitProbabilityMatrix)
    (rowLabels colLabels : List ℚ) : Except String DigitProbabilityMatrix :=
  mapDigitCore "Expected row and column labels to each have length 10."
    "Invalid row label while mapping digit probabilities."
    "Invalid column label while mapping digit probabilities."
    digitMatrix rowLabels colLabels

/-- `finalizeBoardPercentages` of squareOddsService.ts (lines 966-979): a
non-positive (or non-finite) total falls back to the all-ones board, otherwise
every cell is rescaled by `100 / total` and clamped into `[0, 100]`. -/
def finalizeBoardPercentages (boardPercentages : Fin 10 → Fin 10 → ℚ) :
    Fin 10 → Fin 10 → ℚ :=
  let total := matrixSum boardPercentages
  if total ≤ 0 then fun _ _ => 1
  else
    let scale := 100 / total
    fun r c => clamp (boardPercentages r c * scale) 0 100

end OddsService

namespace Realtime

/-- `mapDigitMatrixToBoard` of the realtime engine (lines 58-82 of its file,
same logic as the service copy with realtime-specific error strings). -/
def mapDigitMatrixToBoard (digitMatrix : DigitProbabilityMatrix)
    (rowLabels colLabels : List ℚ) : Except String DigitProbabilityMatrix :=
  mapDigitCore "Expected 10 row labels and 10 column labels for realtime heatmap."
    "Invalid row label while mapping realtime probabilities."
    "Invalid column label while mapping realtime probabilities."
    digitMatrix rowLabels colLabels

/-- `finalizeBoardPercentages` of the realtime engine (identical arithmetic to
the squareOddsService.ts copy). -/
def finalizeBoardPercentages (boardPercentages : Fin 10 → Fin 10 → ℚ) :
    Fin 10 → Fin 10 → ℚ :=
  let total := matrixSum boardPercentages
  if total ≤ 0 then fun _ _ => 1
  else
    let scale := 100 / total
    fun r c => clamp (boardPercentages r c * scale) 0 100

end Realtime

lemma clamp_le (value minValue maxValue : ℚ) : clamp value minValue maxValue ≤ maxValue :=
  min_le_left _ _

lemma le_clamp (value minValue maxValue : ℚ) (h : minValue ≤ maxValue) :
    minValue ≤ clamp value minValue maxValue :=
  le_min h (le_max_left _ _)

lemma clamp_eq_self (value minValue maxValue : ℚ) (h1 : minValue ≤ value)
    (h2 : value ≤ maxValue) : clamp value minValue maxValue = value := by
  unfold clamp
  rw [max_eq_right h1, min_eq_right h2]

lemma checkColLabels_ok (colMsg : String) (ls : List ℚ)
    (h : ∀ q ∈ ls, isDigitLabel q) : checkColLabels colMsg ls = Except.ok () := by
  induction ls with
  | nil => rfl
  | cons q rest ih =>
    unfold checkColLabels
    rw [if_pos (h q (List.mem_cons_self q rest))]
    exact ih fun p hp => h p (List.mem_cons_of_mem q hp)

lemma checkColLabels_error (colMsg : String) (ls : List ℚ)
    (h : ¬ ∀ q ∈ ls, isDigitLabel q) :
    checkColLabels colMsg ls = Except.error colMsg := by
  induction ls with
  | nil => exact absurd (fun q hq => absurd hq (List.not_mem_nil q)) h
  | cons q rest ih =>
    unfold checkColLabels
    by_cases hq : isDigitLabel q
    · rw [if_pos hq]
      apply ih
      intro hall
      exact h fun p hp => by
        rcases List.mem_cons.mp hp with h1 | h2
        · exact h1 ▸ hq
        · exact hall p h2
    · rw [if_neg hq]

lemma checkRowThenCols_ok (rowMsg colMsg : String) (colLabels rowLabels : List ℚ)
    (hr : ∀ q ∈ rowLabels, isDigitLabel q) (hc : ∀ q ∈ colLabels, isDigitLabel q) :
    checkRowThenCols rowMsg colMsg colLabels rowLabels = Except.ok () := by
  induction rowLabels with
  | nil => rfl
  | cons q rest ih =>
    unfold checkRowThenCols
    rw [if_pos (hr q (List.mem_cons_self q rest)), checkColLabels_ok colMsg colLabels hc]
    exact ih fun p hp => hr p (List.mem_cons_of_mem q hp)

lemma checkRowThenCols_error (rowMsg colMsg : String) (colLabels rowLabels : List ℚ)
    (hne : rowLabels ≠ [])
    (h : ¬ ((∀ q ∈ rowLabels, isDigitLabel q) ∧ ∀ q ∈ colLabels, isDigitLabel q)) :
    ∃ e, checkRowThenCols rowMsg colMsg colLabels rowLabels = Except.error e := by
  induction rowLabels with
  | nil => exact absurd rfl hne
  | cons q rest ih =>
    unfold checkRowThenCols
    by_cases hq : isDigitLabel q
    · rw [if_pos hq]
      by_cases hc : ∀ p ∈ colLabels, isDigitLabel p
      · rw [checkColLabels_ok colMsg colLabels hc]
        rcases eq_or_ne rest [] with hrest | hrest
        · subst hrest
          exact absurd ⟨List.forall_mem_cons.mpr ⟨hq, by simp⟩, hc⟩ h
        · apply ih hrest
          intro hboth
          exact h ⟨List.forall_mem_cons.mpr ⟨hq, hboth.1⟩, hboth.2⟩
      · rw [checkColLabels_error colMsg colLabels hc]
        exact ⟨colMsg, rfl⟩
    · rw [if_neg hq]
      exact ⟨rowMsg, rfl⟩

lemma mapDigitCore_ok (lenMsg rowMsg colMsg : String) (m : DigitProbabilityMatrix)
    (rowLabels colLabels : List ℚ)
    (hr : validLabels rowLabels) (hc : validLabels colLabels) :
    mapDigitCore lenMsg rowMsg colMsg m rowLabels colLabels =
      Except.ok fun r c =>
        m (labelDigit (rowLabels.getD r.val 0)) (labelDigit (colLabels.getD c.val 0)) * 100 := by
  unfold mapDigitCore
  rw [if_pos ⟨hr.1, hc.1⟩, checkRowThenCols_ok rowMsg colMsg colLabels rowLabels hr.2 hc.2]

lemma mapDigitCore_error (lenMsg rowMsg colMsg : String) (m : DigitProbabilityMatrix)
    (rowLabels colLabels : List ℚ)
    (h : ¬ (validLabels rowLabels ∧ validLabels colLabels)) :
    ∃ e, mapDigitCore lenMsg rowMsg colMsg m rowLabels colLabels = Except.error e := by
  unfold mapDigitCore
  by_cases hlen : rowLabels.length = 10 ∧ colLabels.length = 10
  · rw [if_pos hlen]
    have hne : rowLabels ≠ [] := by
      intro h0
      rw [h0] at hlen
      exact absurd hlen.1 (by simp)
    have hnotall : ¬ ((∀ q ∈ rowLabels, isDigitLabel q) ∧ ∀ q ∈ colLabels, isDigitLabel q) := by
      intro hall
      exact h ⟨⟨hlen.1, hall.1⟩, hlen.2, hall.2⟩
    obtain ⟨e, he⟩ := checkRowThenCols_error rowMsg colMsg colLabels rowLabels hne hnotall
    rw [he]
    exact ⟨e, rfl⟩
  · rw [if_neg hlen]
    exact ⟨lenMsg, rfl⟩

lemma isDigitLabel_num (q : ℚ) (h : isDigitLabel q) :
    0 ≤ q.num ∧ q.num ≤ 9 ∧ (q.num : ℚ) = q := by
  obtain ⟨hden, h0, h9⟩ := h
  have hq : (q.num : ℚ) = q := by
    have := Rat.num_div_den q
    rw [hden] at this
    simpa using this
  refine ⟨Rat.num_nonneg.mpr h0, ?_, hq⟩
  have : (q.num : ℚ) ≤ (9 : ℚ) := hq ▸ h9
  exact_mod_cast this

lemma labelDigit_inj (q1 q2 : ℚ) (h1 : isDigitLabel q1) (h2 : isDigitLabel q2)
    (h : labelDigit q1 = labelDigit q2) : q1 = q2 := by
  obtain ⟨ha1, hb1, hc1⟩ := isDigitLabel_num q1 h1
  obtain ⟨ha2, hb2, hc2⟩ := isDigitLabel_num q2 h2
  have hv : q1.num.toNat % 10 = q2.num.toNat % 10 := congrArg Fin.val h
  have : q1.num = q2.num := by omega
  rw [← hc1, ← hc2, this]

lemma labelPerm_bijective (ls : List ℚ) (hv : validLabels ls) (hn : ls.Nodup) :
    Function.Bijective (fun r : Fin 10 => labelDigit (ls.getD r.val 0)) := by
  have hlt : ∀ r : Fin 10, r.val < ls.length := fun r => by rw [hv.1]; exact r.isLt
  have hinj : Function.Injective (fun r : Fin 10 => labelDigit (ls.getD r.val 0)) := by
    intro r1 r2 h
    simp only at h
    rw [List.getD_eq_getElem ls 0 (hlt r1), List.getD_eq_getElem ls 0 (hlt r2)] at h
    have hq := labelDigit_inj _ _ (hv.2 _ (List.getElem_mem (hlt r1)))
      (hv.2 _ (List.getElem_mem (hlt r2))) h
    exact Fin.ext ((hn.getElem_inj_iff).mp hq)
  exact (Finite.injective_iff_bijective).mp hinj

lemma board_matrixSum (m : DigitProbabilityMatrix) (rowLabels colLabels : List ℚ)
    (hm1 : matrixSum m = 1)
    (hrv : validLabels rowLabels) (hrn : rowLabels.Nodup)
    (hcv : validLabels colLabels) (hcn : colLabels.Nodup) :
    matrixSum (fun r c =>
      m (labelDigit (rowLabels.getD r.val 0)) (labelDigit (colLabels.getD c.val 0)) * 100) = 100 := by
  have hrb := labelPerm_bijective rowLabels hrv hrn
  have hcb := labelPerm_bijective colLabels hcv hcn
  unfold matrixSum at hm1 ⊢
  have hinner : ∀ a : Fin 10,
      (∑ c : Fin 10, m a (labelDigit (colLabels.getD c.val 0)) * 100) =
      (∑ c : Fin 10, m a c) * 100 := by
    intro a
    rw [← Finset.sum_mul]
    congr 1
    exact hcb.sum_comp (fun b => m a b)
  calc (∑ r : Fin 10, ∑ c : Fin 10,
          m (labelDigit (rowLabels.getD r.val 0)) (labelDigit (colLabels.getD c.val 0)) * 100)
      = ∑ r : Fin 10, (∑ c : Fin 10, m (labelDigit (rowLabels.getD r.val 0)) c) * 100 := by
        apply Finset.sum_congr rfl
        intro r _
        exact hinner _
    _ = ∑ r : Fin 10, (∑ c : Fin 10, m r c) * 100 :=
        hrb.sum_comp (fun a => (∑ c : Fin 10, m a c) * 100)
    _ = (∑ r : Fin 10, ∑ c : Fin 10, m r c) * 100 := by rw [Finset.sum_mul]
    _ = 100 := by rw [hm1]; norm_num

lemma matrix_entry_le_one (m : DigitProbabilityMatrix)
    (hm0 : ∀ r c, 0 ≤ m r c) (hm1 : matrixSum m = 1) (a b : Fin 10) :
    m a b ≤ 1 := by
  have h1 : m a b ≤ ∑ c : Fin 10, m a c :=
    Finset.single_le_sum (fun c _ => hm0 a c) (Finset.mem_univ b)
  have h2 : (∑ c : Fin 10, m a c) ≤ ∑ r : Fin 10, ∑ c : Fin 10, m r c :=
    Finset.single_le_sum (fun r _ => Finset.sum_nonneg fun c _ => hm0 r c) (Finset.mem_univ a)
  calc m a b ≤ ∑ c : Fin 10, m a c := h1
    _ ≤ ∑ r : Fin 10, ∑ c : Fin 10, m r c := h2
    _ = 1 := hm1

/-- Claim C4: for every digit probability matrix with nonnegative entries
summing to 1 and every pair of valid label permutations (length-10, integer
digit entries, no repeats), mapping the matrix onto the labels with
`mapDigitMatrixToBoard` succeeds, and finalizing with
`finalizeBoardPercentages` yields a board whose entries all lie in `[0, 100]`,
whose total is exactly 100 (hence within the claimed 1e-6 tolerance), and
which is proportional to the label-reindexed digit matrix. -/
theorem boardPercentages_spec (m : DigitProbabilityMatrix) (rowLabels colLabels : List ℚ)
    (hm0 : ∀ r c, 0 ≤ m r c) (hm1 : matrixSum m = 1)
    (hrv : validLabels rowLabels) (hrn : rowLabels.Nodup)
    (hcv : validLabels colLabels) (hcn : colLabels.Nodup) :
    ∃ board, OddsService.mapDigitMatrixToBoard m rowLabels colLabels = Except.ok board ∧
      (∀ r c, 0 ≤ OddsService.finalizeBoardPercentages board r c ∧
              OddsService.finalizeBoardPercentages board r c ≤ 100) ∧
      matrixSum (OddsService.finalizeBoardPercentages board) = 100 ∧
      ∃ k : ℚ, 0 < k ∧ ∀ r c, OddsService.finalizeBoardPercentages board r c =
        k * m (labelDigit (rowLabels.getD r.val 0)) (labelDigit (colLabels.getD c.val 0)) := by
  refine ⟨_, mapDigitCore_ok _ _ _ m rowLabels colLabels hrv hcv, ?_⟩
  set board : DigitProbabilityMatrix := fun r c =>
    m (labelDigit (rowLabels.getD r.val 0)) (labelDigit (colLabels.getD c.val 0)) * 100 with hboard
  have hsum : matrixSum board = 100 :=
    board_matrixSum m rowLabels colLabels hm1 hrv hrn hcv hcn
  have hb0 : ∀ r c, 0 ≤ board r c := fun r c =>
    mul_nonneg (hm0 _ _) (by norm_num)
  have hb100 : ∀ r c, board r c ≤ 100 := by
    intro r c
    have := matrix_entry_le_one m hm0 hm1
      (labelDigit (rowLabels.getD r.val 0)) (labelDigit (colLabels.getD c.val 0))
    calc board r c = m _ _ * 100 := rfl
      _ ≤ 1 * 100 := by
        apply mul_le_mul_of_nonneg_right this (by norm_num)
      _ = 100 := by norm_num
  have hfin : OddsService.finalizeBoardPercentages board = board := by
    unfold OddsService.finalizeBoardPercentages
    rw [hsum]
    rw [if_neg (by norm_num)]
    funext r c
    have : (100 : ℚ) / 100 = 1 := by norm_num
    rw [this, mul_one]
    exact clamp_eq_self _ _ _ (hb0 r c) (hb100 r c)
  refine ⟨?_, ?_, ?_⟩
  · intro r c
    rw [hfin]
    exact ⟨hb0 r c, hb100 r c⟩
  · rw [hfin, hsum]
  · exact ⟨100, by norm_num, fun r c => by rw [hfin, hboard, mul_comm]⟩

/-- Witness for C4: the theorem applied to the uniform matrix with the
identity row labels and a shuffled set of column labels. -/
theorem boardPercentages_spec_witness :
    matrixSum createUniformDigitMatrix = 1 ∧
    ∃ board, OddsService.mapDigitMatrixToBoard createUniformDigitMatrix
        [0, 1, 2, 3, 4, 5, 6, 7, 8, 9] [5, 0, 1, 2, 3, 4, 6, 7, 8, 9] = Except.ok board ∧
      matrixSum (OddsService.finalizeBoardPercentages board) = 100 := by
  have huni : matrixSum createUniformDigitMatrix = 1 := by
    simp [matrixSum, createUniformDigitMatrix, Finset.sum_const, Finset.card_univ]
    norm_num
  have h := boardPercentages_spec createUniformDigitMatrix
    [0, 1, 2, 3, 4, 5, 6, 7, 8, 9] [5, 0, 1, 2, 3, 4, 6, 7, 8, 9]
    (fun r c => by norm_num [createUniformDigitMatrix])
    huni
    (by decide) (by decide) (by decide) (by decide)
  obtain ⟨board, hb, _, hsum, _⟩ := h
  exact ⟨huni, board, hb, hsum⟩

/-- JavaScript string `trim` (ASCII whitespace suffices for the inputs the
pipeline produces). -/
def jsWhitespaceChar (c : Char) : Bool :=
  c = ' ' ∨ c = '\t' ∨ c = '\n' ∨ c = '\r'

def jsTrim (s : String) : String :=
  String.mk (((s.data.dropWhile jsWhitespaceChar).reverse.dropWhile jsWhitespaceChar).reverse)

/-- JavaScript `toUpperCase` (ASCII). -/
def jsToUpper (s : String) : String :=
  String.mk (s.data.map Char.toUpper)

/-- JavaScript `toLowerCase` (ASCII). -/
def jsToLower (s : String) : String :=
  String.mk (s.data.map Char.toLower)

/-- `LiveGameStatus` of types.ts. -/
inductive LiveGameStatus where
  | pregame
  | in_progress
  | halftime
  | final
  | postponed
  | unknown
deriving DecidableEq, Repr

/-- `SquareOddsSourceMode` of types.ts. -/
inductive SquareOddsSourceMode where
  | full
  | baseline
deriving DecidableEq, Repr

/-- `SquareOddsComputationSource` of types.ts. -/
inductive SquareOddsComputationSource where
  | nflverse_games
  | nflverse_closing_lines
  | espn_team_stats
  | thesportsdb_recent_form
  | espn_live_scoreboard
  | espn_live_summary
  | live_commentary_sentiment
  | fallback_model
deriving DecidableEq, Repr

namespace OddsService

/-- `americanOddsToImpliedProbability` of squareOddsService.ts (lines 406-412):
`0.5` for zero (or non-finite) odds, `|odds| / (|odds| + 100)` for negative
odds, `100 / (odds + 100)` for positive odds. -/
def americanOddsToImpliedProbability (odds : ℚ) : ℚ :=
  if odds = 0 then 1 / 2
  else if odds < 0 then |odds| / (|odds| + 100)
  else 100 / (odds + 100)

/-- `MoneylineRecord` of squareOddsService.ts. -/
structure MoneylineRecord where
  season : ℤ
  side : String
  impliedProbability : ℚ
deriving Repr

/-- One row of the closing-lines CSV after field selection, with the two
numeric parses (`Number.parseInt(row.game_id.slice(0, 4), 10)` and
`parseNumeric(row.odds)`) abstracted to their `Option` results. -/
structure RawLineRow where
  seasonOfGameId : Option ℤ
  rowType : String
  side : String
  odds : Option ℚ

/-- The per-row mapping of `loadClosingMoneylines` (lines 427-443): rows whose
type is not `MONEYLINE`, whose odds fail to parse, or whose game-id season
fails to parse, are dropped; otherwise a record is built whose implied
probability is the converted odds clamped into `[0.01, 0.99]`. -/
def rowToMoneyline (row : RawLineRow) : Option MoneylineRecord :=
  if row.rowType ≠ "MONEYLINE" then none
  else
    match row.odds with
    | none => none
    | some odds =>
      match row.seasonOfGameId with
      | none => none
      | some season =>
        some { season := season
               side := jsToUpper (jsTrim row.side)
               impliedProbability :=
                 clamp (americanOddsToImpliedProbability odds) (1 / 100) (99 / 100) }

end OddsService

/-- Claim C7: American odds convert to implied probability as
`|odds| / (|odds| + 100)` for negative odds and `100 / (odds + 100)` for
positive odds, so `-110` maps to `110/210` and `+150` maps to `100/250 = 0.4`;
and every moneyline record produced by the closing-lines row mapping stores an
implied probability clamped into `[0.01, 0.99]`. -/
theorem americanOdds_spec :
    (∀ odds : ℚ, odds < 0 →
      OddsService.americanOddsToImpliedProbability odds = |odds| / (|odds| + 100)) ∧
    (∀ odds : ℚ, 0 < odds →
      OddsService.americanOddsToImpliedProbability odds = 100 / (odds + 100)) ∧
    OddsService.americanOddsToImpliedProbability (-110) = 110 / 210 ∧
    OddsService.americanOddsToImpliedProbability 150 = 100 / 250 ∧
    (100 : ℚ) / 250 = 4 / 10 ∧
    (∀ (row : OddsService.RawLineRow) (rec : OddsService.MoneylineRecord),
      OddsService.rowToMoneyline row = some rec →
      1 / 100 ≤ rec.impliedProbability ∧ rec.impliedProbability ≤ 99 / 100) := by
  have hneg : ∀ odds : ℚ, odds < 0 →
      OddsService.americanOddsToImpliedProbability odds = |odds| / (|odds| + 100) := by
    intro odds h
    unfold OddsService.americanOddsToImpliedProbability
    rw [if_neg (ne_of_lt h), if_pos h]
  have hpos : ∀ odds : ℚ, 0 < odds →
      OddsService.americanOddsToImpliedProbability odds = 100 / (odds + 100) := by
    intro odds h
    unfold OddsService.americanOddsToImpliedProbability
    rw [if_neg (ne_of_gt h), if_neg (not_lt_of_gt h)]
  refine ⟨hneg, hpos, ?_, ?_, by norm_num, ?_⟩
  · rw [hneg (-110) (by norm_num)]
    norm_num
  · rw [hpos 150 (by norm_num)]
    norm_num
  · intro row rec h
    obtain ⟨sog, rt, sd, od⟩ := row
    unfold OddsService.rowToMoneyline at h
    by_cases ht : rt ≠ "MONEYLINE"
    · rw [if_pos ht] at h
      exact absurd h (by simp)
    · rw [if_neg ht] at h
      rcases od with _ | odds
      · exact absurd h (by simp)
      · rcases sog with _ | season
        · exact absurd h (by simp)
        · simp only [Option.some.injEq] at h
          subst h
          exact ⟨le_clamp _ _ _ (by norm_num), clamp_le _ _ _⟩

/-- A concrete moneyline row used by the C7 witness. -/
def mlRow0 : OddsService.RawLineRow :=
  { seasonOfGameId := some 2023, rowType := "MONEYLINE", side := "SEA", odds := some (-110) }

/-- Witness for C7: the theorem applied at odds `-110`, `+150` and at a
concrete `MONEYLINE` row. -/
theorem americanOdds_spec_witness :
    OddsService.americanOddsToImpliedProbability (-110) = |(-110 : ℚ)| / (|(-110 : ℚ)| + 100) ∧
    OddsService.americanOddsToImpliedProbability 150 = 100 / (150 + 100) ∧
    (1 / 100 ≤ (OddsService.MoneylineRecord.mk 2023 "SEA" (110 / 210)).impliedProbability ∧
      (OddsService.MoneylineRecord.mk 2023 "SEA" (110 / 210)).impliedProbability ≤ 99 / 100) := by
  have hrow : OddsService.rowToMoneyline mlRow0 =
      some (OddsService.MoneylineRecord.mk 2023 "SEA" (110 / 210)) := by
    have h110 : OddsService.americanOddsToImpliedProbability (-110) = 110 / 210 :=
      americanOdds_spec.2.2.1
    have hside : jsToUpper (jsTrim "SEA") = "SEA" := by decide
    have hclamp : clamp (OddsService.americanOddsToImpliedProbability (-110)) (1 / 100) (99 / 100)
        = 110 / 210 := by
      rw [h110]
      exact clamp_eq_self _ _ _ (by norm_num) (by norm_num)
    show some (OddsService.MoneylineRecord.mk 2023 (jsToUpper (jsTrim "SEA"))
      (clamp (OddsService.americanOddsToImpliedProbability (-110)) (1 / 100) (99 / 100))) = _
    rw [hside, hclamp]
  exact ⟨americanOdds_spec.1 (-110) (by norm_num),
    americanOdds_spec.2.1 150 (by norm_num),
    americanOdds_spec.2.2.2.2.2 mlRow0 _ hrow⟩

namespace LiveFeed

/-- Numeric value of an ASCII digit character. -/
def digitVal (c : Char) : ℕ := c.toNat - 48

/-- The regex `^(\d{1,2}):(\d{2})$` of `parseClockToSeconds`, together with the
two `Number.parseInt` calls on its capture groups. -/
def matchClockPattern (s : String) : Option (ℕ × ℕ) :=
  match s.data with
  | [a, b, c, d] =>
    if a.isDigit ∧ b = ':' ∧ c.isDigit ∧ d.isDigit then
      some (digitVal a, digitVal c * 10 + digitVal d)
    else none
  | [a, b, c, d, e] =>
    if a.isDigit ∧ b.isDigit ∧ c = ':' ∧ d.isDigit ∧ e.isDigit then
      some (digitVal a * 10 + digitVal b, digitVal d * 10 + digitVal e)
    else none
  | _ => none

/-- `parseClockToSeconds` of the live snapshot fetcher (lines 114-122): `null`
input and the empty string (both falsy) yield `null`; otherwise the trimmed
string must match `^(\d{1,2}):(\d{2})$` and the parsed
`minutes * 60 + seconds` is clamped into `[0, 900]`.  (`Number.isFinite` on
freshly parsed digit groups is vacuous.) -/
def parseClockToSeconds (clock : Option String) : Option ℚ :=
  match clock with
  | none => none
  | some s =>
    if s = "" then none
    else
      match matchClockPattern (jsTrim s) with
      | none => none
      | some (minutes, seconds) =>
        some (clamp ((minutes : ℚ) * 60 + (seconds : ℚ)) 0 (15 * 60))

/-- `calculateRemainingGameSeconds` of the live snapshot fetcher (lines
142-162). -/
def calculateRemainingGameSeconds (status : LiveGameStatus) (period : ℤ)
    (secondsInPeriod : Option ℚ) : Option ℚ :=
  if status = LiveGameStatus.final ∨ status = LiveGameStatus.postponed then some 0
  else if status = LiveGameStatus.pregame then some (4 * 15 * 60)
  else if status = LiveGameStatus.halftime then some (2 * 15 * 60)
  else
    match secondsInPeriod with
    | none => none
    | some s =>
      if period ≤ 4 then
        let clampedPeriod := clamp (period : ℚ) 1 4
        some ((4 - clampedPeriod) * (15 * 60) + clamp s 0 (15 * 60))
      else some (clamp s 0 (15 * 60))

end LiveFeed

lemma parseClock_bounds (clock : Option String) (v : ℚ)
    (h : LiveFeed.parseClockToSeconds clock = some v) : 0 ≤ v ∧ v ≤ 900 := by
  unfold LiveFeed.parseClockToSeconds at h
  split at h
  · exact absurd h (by simp)
  · split at h
    · exact absurd h (by simp)
    · split at h
      · exact absurd h (by simp)
      · simp only [Option.some.injEq] at h
        subst h
        exact ⟨le_clamp _ _ _ (by norm_num), le_trans (clamp_le _ _ _) (by norm_num)⟩

/-- Claim C6: remaining-game-seconds derivation — `0` for final or postponed,
`3600` for pregame, `1800` for halftime; for an in-progress period `≤ 4`, the
parsed clock value `v` gives `(4 - period) * 900 + v`; for overtime periods the
parsed clock value alone; and an unparseable display clock during an
in-progress period yields `none` (unknown), never a number. -/
theorem remainingSeconds_spec :
    (∀ (period : ℤ) (s : Option ℚ),
      LiveFeed.calculateRemainingGameSeconds LiveGameStatus.final period s = some 0) ∧
    (∀ (period : ℤ) (s : Option ℚ),
      LiveFeed.calculateRemainingGameSeconds LiveGameStatus.postponed period s = some 0) ∧
    (∀ (period : ℤ) (s : Option ℚ),
      LiveFeed.calculateRemainingGameSeconds LiveGameStatus.pregame period s = some 3600) ∧
    (∀ (period : ℤ) (s : Option ℚ),
      LiveFeed.calculateRemainingGameSeconds LiveGameStatus.halftime period s = some 1800) ∧
    (∀ (period : ℤ) (clock : Option String) (v : ℚ),
      1 ≤ period → period ≤ 4 → LiveFeed.parseClockToSeconds clock = some v →
      LiveFeed.calculateRemainingGameSeconds LiveGameStatus.in_progress period (some v) =
        some ((4 - (period : ℚ)) * 900 + v)) ∧
    (∀ (period : ℤ) (clock : Option String) (v : ℚ),
      5 ≤ period → LiveFeed.parseClockToSeconds clock = some v →
      LiveFeed.calculateRemainingGameSeconds LiveGameStatus.in_progress period (some v) = some v) ∧
    (∀ (period : ℤ) (clock : Option String),
      LiveFeed.parseClockToSeconds clock = none →
      LiveFeed.calculateRemainingGameSeconds LiveGameStatus.in_progress period
        (LiveFeed.parseClockToSeconds clock) = none) := by
  refine ⟨?_, ?_, ?_, ?_, ?_, ?_, ?_⟩
  · intro period s
    unfold LiveFeed.calculateRemainingGameSeconds
    rw [if_pos (Or.inl rfl)]
  · intro period s
    unfold LiveFeed.calculateRemainingGameSeconds
    rw [if_pos (Or.inr rfl)]
  · intro period s
    unfold LiveFeed.calculateRemainingGameSeconds
    rw [if_neg (by simp), if_pos rfl]
    norm_num
  · intro period s
    unfold LiveFeed.calculateRemainingGameSeconds
    rw [if_neg (by simp), if_neg (by simp), if_pos rfl]
    norm_num
  · intro period clock v h1 h4 hv
    obtain ⟨hv0, hv900⟩ := parseClock_bounds clock v hv
    unfold LiveFeed.calculateRemainingGameSeconds
    rw [if_neg (by simp), if_neg (by simp), if_neg (by simp)]
    simp only
    rw [if_pos h4]
    have hc1 : clamp (period : ℚ) 1 4 = (period : ℚ) :=
      clamp_eq_self _ _ _ (by exact_mod_cast h1) (by exact_mod_cast h4)
    have hc2 : clamp v 0 (15 * 60) = v := clamp_eq_self _ _ _ hv0 (by norm_num; exact hv900)
    rw [hc1, hc2]
    norm_num
  · intro period clock v h5 hv
    obtain ⟨hv0, hv900⟩ := parseClock_bounds clock v hv
    unfold LiveFeed.calculateRemainingGameSeconds
    rw [if_neg (by simp), if_neg (by simp), if_neg (by simp)]
    simp only
    rw [if_neg (by omega)]
    have hc2 : clamp v 0 (15 * 60) = v := clamp_eq_self _ _ _ hv0 (by norm_num; exact hv900)
    rw [hc2]
  · intro period clock hnone
    rw [hnone]
    unfold LiveFeed.calculateRemainingGameSeconds
    rw [if_neg (by simp), if_neg (by simp), if_neg (by simp)]

/-- Witness for C6: the theorem applied at a final snapshot, at period 2 with
the parseable clock `"5:30"`, and at the unparseable clock `"soon"`. -/
theorem remainingSeconds_spec_witness :
    LiveFeed.calculateRemainingGameSeconds LiveGameStatus.final 4 (some 10) = some 0 ∧
    LiveFeed.calculateRemainingGameSeconds LiveGameStatus.in_progress 2 (some 330) =
      some ((4 - (2 : ℤ) : ℚ) * 900 + 330) ∧
    LiveFeed.calculateRemainingGameSeconds LiveGameStatus.in_progress 3
      (LiveFeed.parseClockToSeconds (some "soon")) = none := by
  have hparse : LiveFeed.parseClockToSeconds (some "5:30") = some 330 := by
    show some (clamp (((5 : ℕ) : ℚ) * 60 + ((30 : ℕ) : ℚ)) 0 (15 * 60)) = some 330
    have : clamp (((5 : ℕ) : ℚ) * 60 + ((30 : ℕ) : ℚ)) 0 (15 * 60) = 330 := by
      rw [clamp_eq_self _ _ _ (by norm_num) (by norm_num)]
      norm_num
    rw [this]
  have hbad : LiveFeed.parseClockToSeconds (some "soon") = none := by rfl
  refine ⟨remainingSeconds_spec.1 4 (some 10), ?_, ?_⟩
  · have := remainingSeconds_spec.2.2.2.2.1 2 (some "5:30") 330 (by norm_num) (by norm_num) hparse
    simpa using this
  · exact remainingSeconds_spec.2.2.2.2.2.2 3 (some "soon") hbad

namespace Sentiment

/-- `POSITIVE_TERMS` of the sentiment service. -/
def POSITIVE_TERMS : List String :=
  ["touchdown", "scores", "scored", "good", "great", "huge", "explosive",
   "interception", "sack", "forced", "stops", "stop", "efficient", "conversion",
   "converted", "first", "down", "win", "winning", "momentum", "dominant",
   "clutch", "redzone", "red", "zone"]

/-- `NEGATIVE_TERMS` of the sentiment service. -/
def NEGATIVE_TERMS : List String :=
  ["penalty", "foul", "flags", "flag", "missed", "miss", "intercepted",
   "fumble", "turnover", "safety", "stuffed", "stalled", "punt", "sacked",
   "loss", "losing", "injury", "slow", "struggling", "struggle", "incomplete",
   "delay"]

/-- A character that survives the sentiment service's `normalizeText`
replacement step: lower-case ASCII alphanumeric. -/
def keptChar (c : Char) : Bool :=
  c.isDigit ∨ (97 ≤ c.toNat ∧ c.toNat ≤ 122)

/-- Maximal runs of kept characters (the accumulator carries the current run
in reverse). -/
def alnumRunsAux : List Char → List Char → List (List Char)
  | [], acc => if acc.isEmpty then [] else [acc.reverse]
  | c :: rest, acc =>
    if keptChar c then alnumRunsAux rest (c :: acc)
    else if acc.isEmpty then alnumRunsAux rest []
    else acc.reverse :: alnumRunsAux rest []

/-- `tokenize` of the sentiment service: lower-case the text, replace every
character outside `[a-z0-9\s]` by a space, collapse whitespace runs, trim, and
split on single spaces dropping empty pieces.  The net effect of that chain is
exactly the extraction of the maximal runs of lower-case alphanumeric
characters, which is how it is modelled here. -/
def tokenize (value : String) : List String :=
  (alnumRunsAux (value.data.map Char.toLower) []).map String.mk

/-- The per-token accumulation of `scoreCommentaryText`: `+1` for a
positive-set member, `-1` for a negative-set member. -/
def scoreStep (acc : ℚ) (token : String) : ℚ :=
  let acc1 := if token ∈ POSITIVE_TERMS then acc + 1 else acc
  if token ∈ NEGATIVE_TERMS then acc1 - 1 else acc1

/-- `scoreCommentaryText` of the sentiment service: tokenize; an empty token
list scores `0`; otherwise the positive-minus-negative token count is
normalized by `max(tokenCount, 4)`, scaled by the fixed gain `2.4` and clamped
into `[-1, 1]`. -/
def scoreCommentaryText (text : String) : ℚ :=
  let tokens := tokenize text
  if tokens.length = 0 then 0
  else
    let score := tokens.foldl scoreStep 0
    let normalized := score / max (tokens.length : ℚ) 4
    clamp (normalized * (24 / 10)) (-1) 1

end Sentiment

lemma sentiment_disjoint_pos :
    ∀ t ∈ Sentiment.POSITIVE_TERMS, t ∉ Sentiment.NEGATIVE_TERMS := by decide

lemma sentiment_disjoint_neg :
    ∀ t ∈ Sentiment.NEGATIVE_TERMS, t ∉ Sentiment.POSITIVE_TERMS := by decide

lemma scoreFold_pos (ts : List String) (acc : ℚ)
    (h : ∀ t ∈ ts, t ∈ Sentiment.POSITIVE_TERMS) :
    ts.foldl Sentiment.scoreStep acc = acc + ts.length := by
  induction ts generalizing acc with
  | nil => simp
  | cons t rest ih =>
    have ht : t ∈ Sentiment.POSITIVE_TERMS := h t (List.mem_cons_self t rest)
    have hstep : Sentiment.scoreStep acc t = acc + 1 := by
      unfold Sentiment.scoreStep
      rw [if_pos ht]
      simp only
      rw [if_neg (sentiment_disjoint_pos t ht)]
    rw [List.foldl_cons, hstep, ih (acc + 1) (fun p hp => h p (List.mem_cons_of_mem t hp))]
    simp only [List.length_cons]
    push_cast
    ring

lemma scoreFold_neg (ts : List String) (acc : ℚ)
    (h : ∀ t ∈ ts, t ∈ Sentiment.NEGATIVE_TERMS) :
    ts.foldl Sentiment.scoreStep acc = acc - ts.length := by
  induction ts generalizing acc with
  | nil => simp
  | cons t rest ih =>
    have ht : t ∈ Sentiment.NEGATIVE_TERMS := h t (List.mem_cons_self t rest)
    have hstep : Sentiment.scoreStep acc t = acc - 1 := by
      unfold Sentiment.scoreStep
      rw [if_neg (sentiment_disjoint_neg t ht)]
      simp only
      rw [if_pos ht]
    rw [List.foldl_cons, hstep, ih (acc - 1) (fun p hp => h p (List.mem_cons_of_mem t hp))]
    simp only [List.length_cons]
    push_cast
    ring

lemma clamp_pos_of_pos (x : ℚ) (h : 0 < x) : 0 < clamp x (-1) 1 := by
  unfold clamp
  exact lt_min (by norm_num) (lt_of_lt_of_le h (le_max_right _ _))

lemma clamp_neg_of_neg (x : ℚ) (h : x < 0) : clamp x (-1) 1 < 0 := by
  unfold clamp
  exact lt_of_le_of_lt (min_le_right _ _) (max_lt (by norm_num) h)

/-- Claim C8: `scoreCommentaryText` always returns a value in `[-1, 1]`; the
empty string returns exactly `0`; and for every `n ≥ 1`, a string whose `n`
tokens are all drawn from the positive-term set scores strictly greater than a
string whose `n` tokens are all drawn from the negative-term set. -/
theorem scoreCommentaryText_spec :
    (∀ text : String, -1 ≤ Sentiment.scoreCommentaryText text ∧
      Sentiment.scoreCommentaryText text ≤ 1) ∧
    Sentiment.scoreCommentaryText "" = 0 ∧
    (∀ (s1 s2 : String) (n : ℕ), 1 ≤ n →
      (Sentiment.tokenize s1).length = n →
      (∀ t ∈ Sentiment.tokenize s1, t ∈ Sentiment.POSITIVE_TERMS) →
      (Sentiment.tokenize s2).length = n →
      (∀ t ∈ Sentiment.tokenize s2, t ∈ Sentiment.NEGATIVE_TERMS) →
      Sentiment.scoreCommentaryText s2 < Sentiment.scoreCommentaryText s1) := by
  refine ⟨?_, by rfl, ?_⟩
  · intro text
    unfold Sentiment.scoreCommentaryText
    by_cases h : (Sentiment.tokenize text).length = 0
    · rw [if_pos h]
      norm_num
    · rw [if_neg h]
      exact ⟨le_clamp _ _ _ (by norm_num), clamp_le _ _ _⟩
  · intro s1 s2 n hn h1len h1pos h2len h2neg
    have hpos : 0 < Sentiment.scoreCommentaryText s1 := by
      unfold Sentiment.scoreCommentaryText
      rw [if_neg (by omega)]
      apply clamp_pos_of_pos
      apply mul_pos _ (by norm_num)
      apply div_pos
      · rw [scoreFold_pos _ _ h1pos, h1len]
        norm_num
        omega
      · exact lt_of_lt_of_le (by norm_num) (le_max_right _ _)
    have hneg : Sentiment.scoreCommentaryText s2 < 0 := by
      unfold Sentiment.scoreCommentaryText
      rw [if_neg (by omega)]
      apply clamp_neg_of_neg
      apply mul_neg_of_neg_of_pos _ (by norm_num)
      apply div_neg_of_neg_of_pos
      · rw [scoreFold_neg _ _ h2neg, h2len]
        norm_num
        omega
      · exact lt_of_lt_of_le (by norm_num) (le_max_right _ _)
    exact lt_trans hneg hpos

/-- Witness for C8: the theorem applied at the concrete two-token strings
`"touchdown scores"` (all positive terms) and `"fumble penalty"` (all negative
terms). -/
theorem scoreCommentaryText_spec_witness :
    Sentiment.scoreCommentaryText "" = 0 ∧
    -1 ≤ Sentiment.scoreCommentaryText "what a play" ∧
    Sentiment.scoreCommentaryText "fumble penalty" <
      Sentiment.scoreCommentaryText "touchdown scores" := by
  refine ⟨scoreCommentaryText_spec.2.1, (scoreCommentaryText_spec.1 "what a play").1, ?_⟩
  exact scoreCommentaryText_spec.2.2 "touchdown scores" "fumble penalty" 2
    (by norm_num) (by decide) (by decide) (by decide) (by decide)

/-- `LiveGameClock` of types.ts. -/
structure LiveGameClock where
  period : ℤ
  displayClock : String
  secondsRemainingInPeriod : Option ℚ
  secondsRemainingGame : Option ℚ

/-- `LivePlayEvent` of types.ts. -/
structure LivePlayEvent where
  id : String
  text : String
  teamCode : Option String
  period : Option ℤ
  clock : Option String
  isScoringPlay : Bool
  isPenalty : Bool
  isTurnover : Bool
  isExplosivePlay : Bool
  sentimentScore : ℚ

/-- `LiveCommentarySentiment` of types.ts. -/
structure LiveCommentarySentiment where
  home : ℚ
  away : ℚ
  neutral : ℚ

/-- `LiveGameSnapshot` of types.ts. -/
structure LiveGameSnapshot where
  eventId : String
  fetchedAt : String
  status : LiveGameStatus
  statusDetail : String
  homeTeamCode : String
  awayTeamCode : String
  homeTeamName : String
  awayTeamName : String
  homeScore : ℤ
  awayScore : ℤ
  clock : LiveGameClock
  plays : List LivePlayEvent
  sentiment : LiveCommentarySentiment

/-- `LiveFeatureVector` of types.ts. -/
structure LiveFeatureVector where
  remainingGameSeconds : ℚ
  elapsedGameSeconds : ℚ
  homeMomentum : ℚ
  awayMomentum : ℚ
  homePenaltyPressure : ℚ
  awayPenaltyPressure : ℚ
  homeTurnoverPressure : ℚ
  awayTurnoverPressure : ℚ
  homeRecentScoringRate : ℚ
  awayRecentScoringRate : ℚ
  playPacePerMinute : ℚ

/-- `SquareOddsComputationResult` of types.ts. -/
structure SquareOddsComputationResult where
  boardPercentages : DigitProbabilityMatrix
  digitProbabilities : DigitProbabilityMatrix
  generatedAt : String
  sourceMode : SquareOddsSourceMode
  sourcesUsed : List SquareOddsComputationSource
  warnings : List String
  expectedHomePoints : ℚ
  expectedAwayPoints : ℚ

/-- `RealtimeSquareOddsComputationResult` of types.ts (the `extends` is
flattened). -/
structure RealtimeSquareOddsComputationResult where
  boardPercentages : DigitProbabilityMatrix
  digitProbabilities : DigitProbabilityMatrix
  generatedAt : String
  sourceMode : SquareOddsSourceMode
  sourcesUsed : List SquareOddsComputationSource
  warnings : List String
  expectedHomePoints : ℚ
  expectedAwayPoints : ℚ
  engineMode : String
  liveEventId : String
  liveStatus : LiveGameStatus
  liveStatusDetail : String
  liveClock : String
  liveSnapshotAt : String
  featureVector : LiveFeatureVector

/-- The string value of a `LiveGameStatus` (statuses are string literals in
types.ts; used where the source concatenates the status into a string). -/
def statusString : LiveGameStatus → String
  | LiveGameStatus.pregame => "pregame"
  | LiveGameStatus.in_progress => "in_progress"
  | LiveGameStatus.halftime => "halftime"
  | LiveGameStatus.final => "final"
  | LiveGameStatus.postponed => "postponed"
  | LiveGameStatus.unknown => "unknown"

/-- `Array.from(new Set(list))`: deduplicate keeping first occurrences
(JavaScript `Set` iterates in insertion order). -/
def jsSetDedup {α : Type} [DecidableEq α] (l : List α) : List α :=
  l.foldl (fun acc s => if s ∈ acc then acc else acc ++ [s]) []

namespace Realtime

/-- `TOTAL_REGULATION_SECONDS = 4 * 15 * 60`. -/
def TOTAL_REGULATION_SECONDS : ℚ := 4 * 15 * 60

/-- One step of `hashString`'s FNV-1a loop: `hash ^= code; hash =
Math.imul(hash, 16777619)`, carried on 32-bit patterns. -/
def hashStep (hash code : ℕ) : ℕ :=
  (Nat.xor hash code * 16777619) % 4294967296

/-- `hashString` of the realtime engine (FNV-1a over the string's UTF-16 code
units; `Char.toNat` coincides with the code unit for every BMP character, and
every string hashed by the engine is plain ASCII). -/
def hashString (value : String) : ℕ :=
  (value.data.map Char.toNat).foldl hashStep 2166136261

/-- `state = seed || 0x9e3779b9` in `createSeededRandom`. -/
def seedState (seed : ℕ) : ℕ :=
  if seed = 0 then 2654435769 else seed

/-- One draw of the generator returned by `createSeededRandom`; the closure's
mutable `state` is threaded explicitly (first component of the result).  The
JavaScript bitwise operators see their operands as 32-bit patterns and the one
`+` feeding a bitwise operator is congruent mod `2^32`, so the chain is
carried out on `ℕ` with explicit reductions; `>>>` is division by the power of
two, `Math.imul` is multiplication mod `2^32`. -/
def rngStep (state : ℕ) : ℕ × ℚ :=
  let state2 := state + 1831565813
  let t0 := state2 % 4294967296
  let t1 := (Nat.xor t0 (t0 / 32768) * Nat.lor t0 1) % 4294967296
  let inner := (Nat.xor t1 (t1 / 128) * Nat.lor t1 61) % 4294967296
  let t2 := Nat.xor t1 ((t1 + inner) % 4294967296)
  let out := Nat.xor t2 (t2 / 16384)
  (state2, (out : ℚ) / 4294967296)

/-- `sampleStandardNormal` (Box-Muller with the two draws floored at `1e-10`). -/
def sampleStandardNormal (F : JsMath) (state : ℕ) : ℚ × ℕ :=
  let d1 := rngStep state
  let u1 := max d1.2 (1 / 10000000000)
  let d2 := rngStep d1.1
  let u2 := max d2.2 (1 / 10000000000)
  (F.sqrt (-2 * F.log u1) * F.cos (2 * F.pi * u2), d2.1)

/-- Iteration bound for the `while (product > limit)` loop of `samplePoisson`.
In the source the loop always terminates because every factor is at most
`1 - 2^-32 < 1`; this bound is far beyond any reachable iteration count. -/
def poissonLoopFuel : ℕ := 1000000000000000

/-- The `while (product > limit) { count += 1; product *= max(rng(), 1e-10) }`
loop of `samplePoisson`. -/
def poissonLoop (limit : ℚ) : ℕ → ℚ → ℕ → ℕ → ℕ × ℕ
  | 0, _, count, state => (count, state)
  | fuel + 1, product, count, state =>
    if limit < product then
      let d := rngStep state
      poissonLoop limit fuel (product * max d.2 (1 / 10000000000)) (count + 1) d.1
    else (count, state)

/-- `samplePoisson` of the realtime engine: `0` for non-positive (or
non-finite) `lambda`; a rounded-Gaussian approximation above `30`; otherwise
the Knuth product loop, returning `max(0, count - 1)` (natural subtraction). -/
def samplePoisson (F : JsMath) (lambda : ℚ) (state : ℕ) : ℕ × ℕ :=
  if lambda ≤ 0 then (0, state)
  else if 30 < lambda then
    let g := sampleStandardNormal F state
    let gaussian := lambda + g.1 * F.sqrt lambda
    ((max 0 (jsRound gaussian)).toNat, g.2)
  else
    let limit := F.exp (-lambda)
    let r := poissonLoop limit poissonLoopFuel 1 0 state
    (r.1 - 1, r.2)

/-- `ScoringOutcomeWeight` of the realtime engine. -/
structure ScoringOutcomeWeight where
  points : ℚ
  weight : ℚ

/-- `ScoringOutcomeProbability` of the realtime engine. -/
structure ScoringOutcomeProbability where
  points : ℚ
  probability : ℚ

/-- `TeamScoringSimulationProfile` of the realtime engine. -/
structure TeamScoringSimulationProfile where
  expectedScoringEvents : ℚ
  scoringOutcomes : List ScoringOutcomeProbability

/-- `normalizeScoringOutcomeWeights`: keep the outcomes with positive points
and weight; an empty remainder falls back to the fixed historical mix;
otherwise weights are normalized to probabilities. -/
def normalizeScoringOutcomeWeights (outcomes : List ScoringOutcomeWeight) :
    List ScoringOutcomeProbability :=
  let positive := outcomes.filter fun o => decide (0 < o.points ∧ 0 < o.weight)
  if positive.isEmpty then
    [⟨3, 34 / 100⟩, ⟨7, 51 / 100⟩, ⟨8, 6 / 100⟩, ⟨6, 6 / 100⟩, ⟨2, 3 / 100⟩]
  else
    let totalWeight := positive.foldl (fun sum o => sum + o.weight) 0
    positive.map fun o => ⟨o.points, o.weight / totalWeight⟩

/-- The scan of `sampleScoringOutcomePoints` over the outcome list. -/
def outcomePointsLoop : ℚ → List ScoringOutcomeProbability → Option ℚ
  | _, [] => none
  | remaining, o :: rest =>
    let r := remaining - o.probability
    if r ≤ 0 then some o.points else outcomePointsLoop r rest

/-- `sampleScoringOutcomePoints`: draw once, walk the outcome list subtracting
probabilities, fall back to the last outcome's points (or `0`). -/
def sampleScoringOutcomePoints (outcomes : List ScoringOutcomeProbability)
    (state : ℕ) : ℚ × ℕ :=
  let d := rngStep state
  match outcomePointsLoop d.2 outcomes with
  | some pts => (pts, d.1)
  | none =>
    (match outcomes.getLast? with
     | some o => o.points
     | none => 0, d.1)

/-- `estimateRemainingDrivesPerTeam`. -/
def estimateRemainingDrivesPerTeam (remainingSeconds playPacePerMinute
    trailingPressure : ℚ) : ℚ :=
  let adjustedPace := clamp playPacePerMinute (12 / 10) (48 / 10)
  let averagePlaysPerDrive := clamp (6 - trailingPressure * (9 / 10)) (48 / 10) (62 / 10)
  let estimatedDriveSeconds := averagePlaysPerDrive / adjustedPace * 60
  let drives := remainingSeconds / max (estimatedDriveSeconds * 2) 90
  clamp drives (35 / 100) 13

/-- The named-argument record taken by `buildTeamScoringProfile`. -/
structure TeamScoringProfileInput where
  expectedAdditionalPoints : ℚ
  ownMomentum : ℚ
  opponentMomentum : ℚ
  ownScoringRate : ℚ
  ownPenaltyPressure : ℚ
  ownTurnoverPressure : ℚ
  opponentTurnoverPressure : ℚ
  playPacePerMinute : ℚ
  remainingSeconds : ℚ
  scoreDiff : ℚ

/-- `buildTeamScoringProfile` (lines 199-310): situational outcome-mix weights
with their clamps and late-game adjustments, then the expected number of
scoring events. -/
def buildTeamScoringProfile (input : TeamScoringProfileInput) :
    TeamScoringSimulationProfile :=
  let remainingRatio := clamp (input.remainingSeconds / TOTAL_REGULATION_SECONDS) 0 1
  let lateGameUrgency := clamp ((12 * 60 - input.remainingSeconds) / (12 * 60)) 0 1
  let trailingPressure := if input.scoreDiff < 0 then clamp (|input.scoreDiff| / 17) 0 1 else 0
  let leadingControl := if 0 < input.scoreDiff then clamp (input.scoreDiff / 17) 0 1 else 0
  let momentumEdge := clamp (input.ownMomentum - input.opponentMomentum) (-28 / 10) (28 / 10)
  let fieldGoalWeight0 := 34 / 100 + input.ownPenaltyPressure * (7 / 100) +
    leadingControl * (8 / 100 + lateGameUrgency * (6 / 100))
  let touchdownXpWeight0 := 49 / 100 + momentumEdge * (5 / 100) +
    input.ownScoringRate * (2 / 10) - input.ownPenaltyPressure * (5 / 100)
  let touchdownTwoPointWeight0 := 4 / 100 + trailingPressure * lateGameUrgency * (22 / 100) +
    max 0 momentumEdge * (2 / 100)
  let touchdownMissedXpWeight0 := 3 / 100 + input.ownPenaltyPressure * (2 / 100)
  let safetyWeight0 := 1 / 100 + input.opponentTurnoverPressure * (3 / 100) +
    trailingPressure * lateGameUrgency * (25 / 1000)
  let defensiveTouchdownWeight0 := 2 / 100 + input.opponentTurnoverPressure * (8 / 100) +
    max 0 momentumEdge * (1 / 100)
  let touchdownTwoPointWeight1 :=
    if input.remainingSeconds ≤ 3 * 60 ∧ 2 / 10 ≤ trailingPressure then
      touchdownTwoPointWeight0 + 8 / 100
    else touchdownTwoPointWeight0
  let fieldGoalWeight1 :=
    if input.remainingSeconds ≤ 3 * 60 ∧ 2 / 10 ≤ trailingPressure then
      fieldGoalWeight0 * (9 / 10)
    else fieldGoalWeight0
  let fieldGoalWeight2 :=
    if input.remainingSeconds ≤ 2 * 60 ∧ 2 / 10 ≤ leadingControl then
      fieldGoalWeight1 + 1 / 10
    else fieldGoalWeight1
  let touchdownTwoPointWeight2 :=
    if input.remainingSeconds ≤ 2 * 60 ∧ 2 / 10 ≤ leadingControl then
      touchdownTwoPointWeight1 * (65 / 100)
    else touchdownTwoPointWeight1
  let fieldGoalWeight := clamp fieldGoalWeight2 (15 / 100) (62 / 100)
  let touchdownXpWeight := clamp touchdownXpWeight0 (22 / 100) (72 / 100)
  let touchdownTwoPointWeight := clamp touchdownTwoPointWeight2 (1 / 100) (24 / 100)
  let touchdownMissedXpWeight := clamp touchdownMissedXpWeight0 (1 / 100) (8 / 100)
  let safetyWeight := clamp safetyWeight0 (3 / 1000) (7 / 100)
  let defensiveTouchdownWeight := clamp defensiveTouchdownWeight0 (1 / 100) (14 / 100)
  let scoringOutcomes := normalizeScoringOutcomeWeights
    [⟨3, fieldGoalWeight⟩,
     ⟨7, touchdownXpWeight + defensiveTouchdownWeight⟩,
     ⟨8, touchdownTwoPointWeight⟩,
     ⟨6, touchdownMissedXpWeight⟩,
     ⟨2, safetyWeight⟩]
  let expectedPointsPerEvent :=
    scoringOutcomes.foldl (fun sum o => sum + o.points * o.probability) 0
  let drivesPerTeam := estimateRemainingDrivesPerTeam input.remainingSeconds
    input.playPacePerMinute trailingPressure
  let rawExpectedEvents := input.expectedAdditionalPoints / max expectedPointsPerEvent (25 / 10)
  let paceMultiplier := 1 + clamp (input.playPacePerMinute - 22 / 10) (-12 / 10) (28 / 10) * (1 / 10)
  let riskMultiplier := 1 + trailingPressure * lateGameUrgency * (25 / 100) -
    leadingControl * lateGameUrgency * (15 / 100)
  let disruptionMultiplier := clamp
    (1 - input.ownTurnoverPressure * (1 / 10) - input.ownPenaltyPressure * (5 / 100))
    (55 / 100) (115 / 100)
  let momentumMultiplier := 1 + momentumEdge * (6 / 100)
  let timeCompressionMultiplier := 1 + (1 - remainingRatio) * (8 / 100)
  let expectedScoringEvents := clamp
    (rawExpectedEvents * paceMultiplier * riskMultiplier * disruptionMultiplier *
      momentumMultiplier * timeCompressionMultiplier)
    0 (drivesPerTeam * (92 / 100))
  { expectedScoringEvents := expectedScoringEvents, scoringOutcomes := scoringOutcomes }

/-- The mutable aggregates of `buildFeatureVector`'s play loop. -/
structure FeatureAccumulator where
  homeScoring : ℚ
  awayScoring : ℚ
  homePenalties : ℚ
  awayPenalties : ℚ
  homeTurnovers : ℚ
  awayTurnovers : ℚ
  homeMomentum : ℚ
  awayMomentum : ℚ
  playWeightTotal : ℚ

/-- One iteration of `buildFeatureVector`'s loop over the trailing plays
(`entry` is the `(index, play)` pair; `playsLength` is the length of the
trailing window). -/
def featureStep (F : JsMath) (snapshot : LiveGameSnapshot) (playsLength : ℕ)
    (acc : FeatureAccumulator) (entry : ℕ × LivePlayEvent) : FeatureAccumulator :=
  let index := entry.1
  let play := entry.2
  let recencyWeight := F.exp (-(((playsLength - 1 - index : ℕ) : ℚ)) / 13)
  if play.teamCode = some snapshot.homeTeamCode then
    let homeScoring := if play.isScoringPlay then acc.homeScoring + recencyWeight else acc.homeScoring
    let homeMomentum0 := if play.isScoringPlay then acc.homeMomentum + (17 / 10) * recencyWeight else acc.homeMomentum
    let homePenalties := if play.isPenalty then acc.homePenalties + recencyWeight else acc.homePenalties
    let homeMomentum1 := if play.isPenalty then homeMomentum0 - (115 / 100) * recencyWeight else homeMomentum0
    let homeTurnovers := if play.isTurnover then acc.homeTurnovers + recencyWeight else acc.homeTurnovers
    let homeMomentum2 := if play.isTurnover then homeMomentum1 - 2 * recencyWeight else homeMomentum1
    let awayMomentum0 := if play.isTurnover then acc.awayMomentum + (12 / 10) * recencyWeight else acc.awayMomentum
    let homeMomentum3 := if play.isExplosivePlay then homeMomentum2 + (8 / 10) * recencyWeight else homeMomentum2
    let homeMomentum4 := homeMomentum3 + play.sentimentScore * (7 / 10) * recencyWeight
    { acc with
      homeScoring := homeScoring
      homePenalties := homePenalties
      homeTurnovers := homeTurnovers
      homeMomentum := homeMomentum4
      awayMomentum := awayMomentum0
      playWeightTotal := acc.playWeightTotal + recencyWeight }
  else if play.teamCode = some snapshot.awayTeamCode then
    let awayScoring := if play.isScoringPlay then acc.awayScoring + recencyWeight else acc.awayScoring
    let awayMomentum0 := if play.isScoringPlay then acc.awayMomentum + (17 / 10) * recencyWeight else acc.awayMomentum
    let awayPenalties := if play.isPenalty then acc.awayPenalties + recencyWeight else acc.awayPenalties
    let awayMomentum1 := if play.isPenalty then awayMomentum0 - (115 / 100) * recencyWeight else awayMomentum0
    let awayTurnovers := if play.isTurnover then acc.awayTurnovers + recencyWeight else acc.awayTurnovers
    let awayMomentum2 := if play.isTurnover then awayMomentum1 - 2 * recencyWeight else awayMomentum1
    let homeMomentum0 := if play.isTurnover then acc.homeMomentum + (12 / 10) * recencyWeight else acc.homeMomentum
    let awayMomentum3 := if play.isExplosivePlay then awayMomentum2 + (8 / 10) * recencyWeight else awayMomentum2
    let awayMomentum4 := awayMomentum3 + play.sentimentScore * (7 / 10) * recencyWeight
    { acc with
      awayScoring := awayScoring
      awayPenalties := awayPenalties
      awayTurnovers := awayTurnovers
      awayMomentum := awayMomentum4
      homeMomentum := homeMomentum0
      playWeightTotal := acc.playWeightTotal + recencyWeight }
  else
    { acc with
      homeMomentum := acc.homeMomentum + snapshot.sentiment.home * (15 / 100) * recencyWeight
      awayMomentum := acc.awayMomentum + snapshot.sentiment.away * (15 / 100) * recencyWeight
      playWeightTotal := acc.playWeightTotal + recencyWeight }

/-- `buildFeatureVector` (lines 312-424). -/
def buildFeatureVector (F : JsMath) (snapshot : LiveGameSnapshot) : LiveFeatureVector :=
  let remainingGameSeconds :=
    match snapshot.clock.secondsRemainingGame with
    | some s => s
    | none =>
      if snapshot.status = LiveGameStatus.final then 0
      else if snapshot.status = LiveGameStatus.pregame then TOTAL_REGULATION_SECONDS
      else max 0 (TOTAL_REGULATION_SECONDS - ((snapshot.clock.period : ℚ) - 1) * 900)
  let elapsedGameSeconds :=
    clamp (TOTAL_REGULATION_SECONDS - remainingGameSeconds) 0 TOTAL_REGULATION_SECONDS
  let plays := snapshot.plays.drop (snapshot.plays.length - 80)
  let acc := plays.enum.foldl (featureStep F snapshot plays.length)
    { homeScoring := 0, awayScoring := 0, homePenalties := 0, awayPenalties := 0,
      homeTurnovers := 0, awayTurnovers := 0, homeMomentum := 0, awayMomentum := 0,
      playWeightTotal := 0 }
  let effectiveWeight := max acc.playWeightTotal 1
  let recentWindowMinutes := clamp (max (elapsedGameSeconds / 60) 1) 1 60
  let playPacePerMinute := (plays.length : ℚ) / recentWindowMinutes
  let homeRecentScoringRate := acc.homeScoring / effectiveWeight
  let awayRecentScoringRate := acc.awayScoring / effectiveWeight
  let homePenaltyPressure := acc.homePenalties / effectiveWeight
  let awayPenaltyPressure := acc.awayPenalties / effectiveWeight
  let homeTurnoverPressure := acc.homeTurnovers / effectiveWeight
  let awayTurnoverPressure := acc.awayTurnovers / effectiveWeight
  let homeMomentumA := acc.homeMomentum + snapshot.sentiment.home * (125 / 100)
  let awayMomentumA := acc.awayMomentum + snapshot.sentiment.away * (125 / 100)
  let homeMomentumB := homeMomentumA - homePenaltyPressure * (9 / 10)
  let awayMomentumB := awayMomentumA - awayPenaltyPressure * (9 / 10)
  let homeMomentumC := homeMomentumB - homeTurnoverPressure * (135 / 100)
  let awayMomentumC := awayMomentumB - awayTurnoverPressure * (135 / 100)
  { remainingGameSeconds := remainingGameSeconds
    elapsedGameSeconds := elapsedGameSeconds
    homeMomentum := clamp homeMomentumC (-26 / 10) (26 / 10)
    awayMomentum := clamp awayMomentumC (-26 / 10) (26 / 10)
    homePenaltyPressure := clamp homePenaltyPressure 0 (25 / 10)
    awayPenaltyPressure := clamp awayPenaltyPressure 0 (25 / 10)
    homeTurnoverPressure := clamp homeTurnoverPressure 0 (25 / 10)
    awayTurnoverPressure := clamp awayTurnoverPressure 0 (25 / 10)
    homeRecentScoringRate := clamp homeRecentScoringRate 0 2
    awayRecentScoringRate := clamp awayRecentScoringRate 0 2
    playPacePerMinute := clamp playPacePerMinute 0 10 }

/-- `buildDeterministicFinalMatrix` (lines 426-435): a zero matrix with a
single `1` at `(homeScore digit, awayScore digit)`. -/
def buildDeterministicFinalMatrix (homeScore awayScore : ℤ) : DigitProbabilityMatrix :=
  fun r c => if r = toDigit homeScore ∧ c = toDigit awayScore then 1 else 0

/-- `blendMatrices` of the realtime engine (lines 437-453). -/
def blendMatrices (base live : DigitProbabilityMatrix) (liveWeight : ℚ) :
    DigitProbabilityMatrix :=
  let clampedLiveWeight := clamp liveWeight 0 1
  let baseWeight := 1 - clampedLiveWeight
  normalizeMatrix (fun r c => base r c * baseWeight + live r c * clampedLiveWeight)

/-- The digit cell indexed by the source's `(currentScore + additional) % 10`.
Every simulated point value is a positive integer and every reachable score is
a nonnegative integer, so the rational total has denominator 1 and the source's
`%` acts on its integer part. -/
def qScoreDigit (total : ℚ) : Fin 10 := toDigit total.num

/-- The inner `for (eventIndex ...)` loops accumulating sampled outcome points. -/
def runEvents (outcomes : List ScoringOutcomeProbability) :
    ℕ → ℚ → ℕ → ℚ × ℕ
  | 0, total, state => (total, state)
  | n + 1, total, state =>
    let d := sampleScoringOutcomePoints outcomes state
    runEvents outcomes n (total + d.1) d.2

/-- One Monte Carlo run of `buildSimulationMatrix` (lines 507-542), including
the late-game one-possession heuristic; returns the updated matrix and rng
state. -/
def simulationStep (F : JsMath) (snapshot : LiveGameSnapshot)
    (homeProfile awayProfile : TeamScoringSimulationProfile) (remaining : ℚ)
    (state : ℕ) (matrix : DigitProbabilityMatrix) : DigitProbabilityMatrix × ℕ :=
  let hp := samplePoisson F homeProfile.expectedScoringEvents state
  let ap := samplePoisson F awayProfile.expectedScoringEvents hp.2
  let hA := runEvents homeProfile.scoringOutcomes hp.1 0 ap.2
  let aA := runEvents awayProfile.scoringOutcomes ap.1 0 hA.2
  let afterLate : ℚ × ℚ × ℕ :=
    if remaining ≤ 2 * 60 then
      let d := rngStep aA.2
      if d.2 < 28 / 100 then
        let projectedHome := (snapshot.homeScore : ℚ) + hA.1
        let projectedAway := (snapshot.awayScore : ℚ) + aA.1
        if projectedHome < projectedAway then
          let e := sampleScoringOutcomePoints homeProfile.scoringOutcomes d.1
          (hA.1 + e.1, aA.1, e.2)
        else if projectedAway < projectedHome then
          let e := sampleScoringOutcomePoints awayProfile.scoringOutcomes d.1
          (hA.1, aA.1 + e.1, e.2)
        else
          let d2 := rngStep d.1
          if d2.2 < 1 / 2 then
            let e := sampleScoringOutcomePoints homeProfile.scoringOutcomes d2.1
            (hA.1 + e.1, aA.1, e.2)
          else
            let e := sampleScoringOutcomePoints awayProfile.scoringOutcomes d2.1
            (hA.1, aA.1 + e.1, e.2)
      else (hA.1, aA.1, d.1)
    else (hA.1, aA.1, aA.2)
  let homeDigit := qScoreDigit ((snapshot.homeScore : ℚ) + afterLate.1)
  let awayDigit := qScoreDigit ((snapshot.awayScore : ℚ) + afterLate.2.1)
  (fun r c => if r = homeDigit ∧ c = awayDigit then matrix r c + 1 else matrix r c,
   afterLate.2.2)

/-- The outer `for (i < simulationRuns)` loop. -/
def simLoop (F : JsMath) (snapshot : LiveGameSnapshot)
    (homeProfile awayProfile : TeamScoringSimulationProfile) (remaining : ℚ) :
    ℕ → ℕ → DigitProbabilityMatrix → DigitProbabilityMatrix × ℕ
  | 0, state, matrix => (matrix, state)
  | n + 1, state, matrix =>
    let s := simulationStep F snapshot homeProfile awayProfile remaining state matrix
    simLoop F snapshot homeProfile awayProfile remaining n s.2 s.1

/-- `buildSimulationMatrix` of the realtime engine (lines 455-545): the run
count scales with time remaining, the rng is seeded from a hash of the stable
snapshot fields, the two team profiles are built, and the normalized histogram
of the simulated final digit pairs is returned. -/
def buildSimulationMatrix (F : JsMath) (snapshot : LiveGameSnapshot)
    (featureVector : LiveFeatureVector)
    (expectedHomeAdditionalPoints expectedAwayAdditionalPoints : ℚ) :
    DigitProbabilityMatrix :=
  let remaining := featureVector.remainingGameSeconds
  let simulationRuns : ℕ :=
    if remaining ≤ 8 * 60 then 12000 else if remaining ≤ 20 * 60 then 10000 else 8000
  let seedBasis := String.intercalate "|"
    [snapshot.eventId, statusString snapshot.status, snapshot.statusDetail,
     toString snapshot.homeScore, toString snapshot.awayScore,
     toString snapshot.clock.period, snapshot.clock.displayClock,
     (match snapshot.plays.getLast? with
      | some p => p.id
      | none => "none"),
     toString snapshot.plays.length]
  let state0 := seedState (hashString seedBasis)
  let scoreDiff := (snapshot.homeScore : ℚ) - (snapshot.awayScore : ℚ)
  let homeProfile := buildTeamScoringProfile
    { expectedAdditionalPoints := expectedHomeAdditionalPoints
      ownMomentum := featureVector.homeMomentum
      opponentMomentum := featureVector.awayMomentum
      ownScoringRate := featureVector.homeRecentScoringRate
      ownPenaltyPressure := featureVector.homePenaltyPressure
      ownTurnoverPressure := featureVector.homeTurnoverPressure
      opponentTurnoverPressure := featureVector.awayTurnoverPressure
      playPacePerMinute := featureVector.playPacePerMinute
      remainingSeconds := featureVector.remainingGameSeconds
      scoreDiff := scoreDiff }
  let awayProfile := buildTeamScoringProfile
    { expectedAdditionalPoints := expectedAwayAdditionalPoints
      ownMomentum := featureVector.awayMomentum
      opponentMomentum := featureVector.homeMomentum
      ownScoringRate := featureVector.awayRecentScoringRate
      ownPenaltyPressure := featureVector.awayPenaltyPressure
      ownTurnoverPressure := featureVector.awayTurnoverPressure
      opponentTurnoverPressure := featureVector.homeTurnoverPressure
      playPacePerMinute := featureVector.playPacePerMinute
      remainingSeconds := featureVector.remainingGameSeconds
      scoreDiff := -scoreDiff }
  let r := simLoop F snapshot homeProfile awayProfile remaining simulationRuns state0
    createZeroMatrix
  normalizeMatrix r.1

/-- `estimateAdditionalPoints` (lines 547-595). -/
def estimateAdditionalPoints (baseExpectedPoints currentScore ownMomentum
    opponentMomentum ownScoringRate ownPenaltyPressure ownTurnoverPressure
    playPacePerMinute remainingSeconds elapsedSeconds scoreDiff : ℚ) : ℚ :=
  let remainingRatio := clamp (remainingSeconds / TOTAL_REGULATION_SECONDS) 0 1
  let elapsedRatio := clamp (elapsedSeconds / TOTAL_REGULATION_SECONDS) 0 1
  let baseRatePerSecond := baseExpectedPoints / TOTAL_REGULATION_SECONDS
  let observedRatePerSecond := currentScore / max elapsedSeconds (8 * 60)
  let currentScoreWeight := clamp
    (4 / 10 + elapsedRatio * (38 / 100) + (1 - remainingRatio) * (3 / 10))
    (35 / 100) (97 / 100)
  let projectedRate0 := baseRatePerSecond * (1 - currentScoreWeight) +
    observedRatePerSecond * currentScoreWeight
  let projectedRate1 := projectedRate0 * (1 + ownMomentum * (85 / 1000))
  let projectedRate2 := projectedRate1 * (1 + ownScoringRate * (32 / 100))
  let projectedRate3 := projectedRate2 *
    (1 + clamp (playPacePerMinute - 22 / 10) (-14 / 10) (22 / 10) * (9 / 100))
  let projectedRate4 := projectedRate3 * (1 + (1 - remainingRatio) * (1 / 10))
  let projectedRate5 := projectedRate4 * (1 - ownPenaltyPressure * (22 / 100))
  let projectedRate6 := projectedRate5 * (1 - ownTurnoverPressure * (34 / 100))
  let projectedRate7 := projectedRate6 *
    (1 - clamp opponentMomentum (-15 / 10) (25 / 10) * (55 / 1000))
  let projectedRate8 :=
    if remainingSeconds ≤ 9 * 60 ∧ scoreDiff < 0 then
      projectedRate7 * (1 + clamp (|scoreDiff| / 15) 0 (4 / 10))
    else projectedRate7
  let projectedRate9 :=
    if remainingSeconds ≤ 7 * 60 ∧ 0 < scoreDiff then
      projectedRate8 * (1 - clamp (scoreDiff / 18) 0 (3 / 10))
    else projectedRate8
  let expectedAdditional := projectedRate9 * remainingSeconds
  let contextualCap := clamp
    (12 + baseExpectedPoints * (remainingRatio * (11 / 10) + 35 / 100)) 16 42
  clamp expectedAdditional 0 contextualCap

/-- `getLiveBlendWeight` (lines 597-638). -/
def getLiveBlendWeight (featureVector : LiveFeatureVector)
    (snapshot : LiveGameSnapshot) : ℚ :=
  if snapshot.status = LiveGameStatus.pregame then 2 / 10
  else
    let elapsedRatio := clamp (featureVector.elapsedGameSeconds / TOTAL_REGULATION_SECONDS) 0 1
    let remainingRatio := clamp (featureVector.remainingGameSeconds / TOTAL_REGULATION_SECONDS) 0 1
    let scoreSignal := clamp (((snapshot.homeScore : ℚ) + (snapshot.awayScore : ℚ)) / 56) 0 1
    let scoreDiffSignal := clamp (|(snapshot.homeScore : ℚ) - (snapshot.awayScore : ℚ)| / 21) 0 1
    let lateGamePressure := clamp ((12 * 60 - featureVector.remainingGameSeconds) / (12 * 60)) 0 1
    if featureVector.remainingGameSeconds ≤ 2 * 60 then 99 / 100
    else if featureVector.remainingGameSeconds ≤ 5 * 60 then 95 / 100
    else if featureVector.remainingGameSeconds ≤ 10 * 60 then 9 / 10
    else
      let blendedWeight := 36 / 100 + elapsedRatio * (34 / 100) +
        (1 - remainingRatio) * (27 / 100) + scoreSignal * (1 / 10) +
        scoreDiffSignal * (5 / 100) + lateGamePressure * (8 / 100)
      clamp blendedWeight (36 / 100) (95 / 100)

/-- `appendUniqueSources` (lines 640-648). -/
def appendUniqueSources (baseSources extras : List SquareOddsComputationSource) :
    List SquareOddsComputationSource :=
  jsSetDedup (baseSources ++ extras)

/-- The warning appended by `buildRealtimeSquareOdds` for pregame snapshots. -/
def pregameWarning : String :=
  "Live feed connected but game has not started. Realtime adjustments are minimal."

/-- `BuildRealtimeSquareOddsInput`. -/
structure BuildRealtimeSquareOddsInput where
  baseModel : SquareOddsComputationResult
  snapshot : LiveGameSnapshot
  rowLabels : List ℚ
  colLabels : List ℚ

/-- The live components computed by lines 655-709 of `buildRealtimeSquareOdds`
(the pre-blend live matrix, the live blend weight and the expected additional
points).  The initial prorated assignments of lines 656-662 are dead stores —
each branch overwrites every one of them — and are therefore not modelled. -/
structure RealtimeLiveParts where
  liveDigitMatrix : DigitProbabilityMatrix
  liveBlendWeight : ℚ
  expectedHomeAdditional : ℚ
  expectedAwayAdditional : ℚ

def realtimeLiveParts (F : JsMath) (baseModel : SquareOddsComputationResult)
    (snapshot : LiveGameSnapshot) (featureVector : LiveFeatureVector) :
    RealtimeLiveParts :=
  if snapshot.status = LiveGameStatus.final ∨ snapshot.status = LiveGameStatus.postponed then
    { liveDigitMatrix := buildDeterministicFinalMatrix snapshot.homeScore snapshot.awayScore
      liveBlendWeight := 1
      expectedHomeAdditional := 0
      expectedAwayAdditional := 0 }
  else
    let scoreDiff := (snapshot.homeScore : ℚ) - (snapshot.awayScore : ℚ)
    let expectedHomeAdditional := estimateAdditionalPoints baseModel.expectedHomePoints
      (snapshot.homeScore : ℚ) featureVector.homeMomentum featureVector.awayMomentum
      featureVector.homeRecentScoringRate featureVector.homePenaltyPressure
      featureVector.homeTurnoverPressure featureVector.playPacePerMinute
      featureVector.remainingGameSeconds featureVector.elapsedGameSeconds scoreDiff
    let expectedAwayAdditional := estimateAdditionalPoints baseModel.expectedAwayPoints
      (snapshot.awayScore : ℚ) featureVector.awayMomentum featureVector.homeMomentum
      featureVector.awayRecentScoringRate featureVector.awayPenaltyPressure
      featureVector.awayTurnoverPressure featureVector.playPacePerMinute
      featureVector.remainingGameSeconds featureVector.elapsedGameSeconds (-scoreDiff)
    { liveDigitMatrix := buildSimulationMatrix F snapshot featureVector
        expectedHomeAdditional expectedAwayAdditional
      liveBlendWeight := getLiveBlendWeight featureVector snapshot
      expectedHomeAdditional := expectedHomeAdditional
      expectedAwayAdditional := expectedAwayAdditional }

/-- `buildRealtimeSquareOdds` (lines 650-771).  `now` is the
`new Date().toISOString()` value produced during the call. -/
def buildRealtimeSquareOdds (F : JsMath) (now : String)
    (input : BuildRealtimeSquareOddsInput) :
    Except String RealtimeSquareOddsComputationResult :=
  let featureVector := buildFeatureVector F input.snapshot
  let parts := realtimeLiveParts F input.baseModel input.snapshot featureVector
  let digitProbabilities := blendMatrices input.baseModel.digitProbabilities
    parts.liveDigitMatrix parts.liveBlendWeight
  match mapDigitMatrixToBoard digitProbabilities input.rowLabels input.colLabels with
  | Except.error e => Except.error e
  | Except.ok mapped =>
    let boardPercentages := finalizeBoardPercentages mapped
    let liveExpectationWeight := clamp (8 / 100 + parts.liveBlendWeight * (92 / 100)) (8 / 100) 1
    let expectedHomePoints :=
      if 999 / 1000 ≤ parts.liveBlendWeight then (input.snapshot.homeScore : ℚ)
      else clamp (input.baseModel.expectedHomePoints * (1 - liveExpectationWeight) +
        ((input.snapshot.homeScore : ℚ) + parts.expectedHomeAdditional) * liveExpectationWeight)
        0 70
    let expectedAwayPoints :=
      if 999 / 1000 ≤ parts.liveBlendWeight then (input.snapshot.awayScore : ℚ)
      else clamp (input.baseModel.expectedAwayPoints * (1 - liveExpectationWeight) +
        ((input.snapshot.awayScore : ℚ) + parts.expectedAwayAdditional) * liveExpectationWeight)
        0 70
    let warnings := input.baseModel.warnings ++
      (if input.snapshot.status = LiveGameStatus.pregame then [pregameWarning] else [])
    let sourcesUsed := appendUniqueSources input.baseModel.sourcesUsed
      [SquareOddsComputationSource.espn_live_scoreboard,
       SquareOddsComputationSource.espn_live_summary,
       SquareOddsComputationSource.live_commentary_sentiment]
    Except.ok
      { boardPercentages := boardPercentages
        digitProbabilities := digitProbabilities
        generatedAt := now
        sourceMode := input.baseModel.sourceMode
        sourcesUsed := sourcesUsed
        warnings := warnings
        expectedHomePoints := expectedHomePoints
        expectedAwayPoints := expectedAwayPoints
        engineMode := "realtime"
        liveEventId := input.snapshot.eventId
        liveStatus := input.snapshot.status
        liveStatusDetail := input.snapshot.statusDetail
        liveClock := "Q" ++ toString input.snapshot.clock.period ++ " " ++
          input.snapshot.clock.displayClock
        liveSnapshotAt := input.snapshot.fetchedAt
        featureVector := featureVector }

end Realtime

lemma neg_tmod_eq (a b : ℤ) : (-a).tmod b = -(a.tmod b) := by
  rw [Int.tmod_def, Int.tmod_def, Int.neg_tdiv]
  ring

lemma tmod_ten_lower (s : ℤ) : -(10 : ℤ) < s.tmod 10 := by
  rcases le_or_lt 0 s with h | h
  · have := Int.tmod_nonneg (10 : ℤ) h
    omega
  · have h1 : (-s).tmod 10 < 10 := Int.tmod_lt_of_pos (-s) (by norm_num)
    have h2 : (-s).tmod 10 = -(s.tmod 10) := neg_tmod_eq s 10
    omega

/-- The double-`%` digit of the source coincides with the mathematical
`score mod 10`. -/
lemma toDigit_val_emod (s : ℤ) : (toDigit s).val = (s % 10).toNat := by
  unfold toDigit
  simp only
  have hub : s.tmod 10 < 10 := Int.tmod_lt_of_pos s (by norm_num)
  have hlb : -(10 : ℤ) < s.tmod 10 := tmod_ten_lower s
  have h0 : (0 : ℤ) ≤ s.tmod 10 + 10 := by omega
  rw [Int.tmod_eq_emod h0 (by norm_num)]
  have hd : s.tmod 10 = s - 10 * s.tdiv 10 := Int.tmod_def s 10
  rw [hd]
  omega

lemma jsSetDedup_foldl_mem {α : Type} [DecidableEq α] (l : List α) (acc : List α) (x : α) :
    x ∈ l.foldl (fun acc s => if s ∈ acc then acc else acc ++ [s]) acc ↔ x ∈ acc ∨ x ∈ l := by
  induction l generalizing acc with
  | nil => simp
  | cons a rest ih =>
    simp only [List.foldl_cons]
    by_cases ha : a ∈ acc
    · rw [if_pos ha, ih]
      constructor
      · rintro (h | h)
        · exact Or.inl h
        · exact Or.inr (List.mem_cons_of_mem a h)
      · rintro (h | h)
        · exact Or.inl h
        · rcases List.mem_cons.mp h with rfl | h2
          · exact Or.inl ha
          · exact Or.inr h2
    · rw [if_neg ha, ih]
      simp only [List.mem_append, List.mem_singleton, List.mem_cons]
      tauto

lemma appendUniqueSources_mem (b e : List SquareOddsComputationSource)
    (x : SquareOddsComputationSource) :
    x ∈ Realtime.appendUniqueSources b e ↔ x ∈ b ∨ x ∈ e := by
  unfold Realtime.appendUniqueSources jsSetDedup
  rw [jsSetDedup_foldl_mem]
  simp [List.mem_append]

lemma realtime_mapDigit_ok (m : DigitProbabilityMatrix) (rows cols : List ℚ)
    (hr : validLabels rows) (hc : validLabels cols) :
    Realtime.mapDigitMatrixToBoard m rows cols = Except.ok fun r c =>
      m (labelDigit (rows.getD r.val 0)) (labelDigit (cols.getD c.val 0)) * 100 :=
  mapDigitCore_ok _ _ _ m rows cols hr hc

lemma realtime_mapDigit_error (m : DigitProbabilityMatrix) (rows cols : List ℚ)
    (h : ¬ (validLabels rows ∧ validLabels cols)) :
    ∃ e, Realtime.mapDigitMatrixToBoard m rows cols = Except.error e :=
  mapDigitCore_error _ _ _ m rows cols h

lemma realtimeLiveParts_final (F : JsMath) (baseModel : SquareOddsComputationResult)
    (snapshot : LiveGameSnapshot) (fv : LiveFeatureVector)
    (hstatus : snapshot.status = LiveGameStatus.final ∨
               snapshot.status = LiveGameStatus.postponed) :
    Realtime.realtimeLiveParts F baseModel snapshot fv =
      { liveDigitMatrix :=
          Realtime.buildDeterministicFinalMatrix snapshot.homeScore snapshot.awayScore
        liveBlendWeight := 1
        expectedHomeAdditional := 0
        expectedAwayAdditional := 0 } := by
  unfold Realtime.realtimeLiveParts
  rw [if_pos hstatus]

/-- Claim C9 (implicit): whenever `rowLabels` or `colLabels` is not a
length-10 array of integer digits 0-9, `buildRealtimeSquareOdds` throws (the
label checks of `mapDigitMatrixToBoard` fail) and produces no result at all —
no fallback and no warning, the error simply propagates. -/
theorem realtime_invalid_labels_throw (F : JsMath) (now : String)
    (input : Realtime.BuildRealtimeSquareOddsInput)
    (h : ¬ (validLabels input.rowLabels ∧ validLabels input.colLabels)) :
    ∃ e, Realtime.buildRealtimeSquareOdds F now input = Except.error e := by
  obtain ⟨e, he⟩ := realtime_mapDigit_error
    (Realtime.blendMatrices input.baseModel.digitProbabilities
      (Realtime.realtimeLiveParts F input.baseModel input.snapshot
        (Realtime.buildFeatureVector F input.snapshot)).liveDigitMatrix
      (Realtime.realtimeLiveParts F input.baseModel input.snapshot
        (Realtime.buildFeatureVector F input.snapshot)).liveBlendWeight)
    input.rowLabels input.colLabels h
  refine ⟨e, ?_⟩
  simp only [Realtime.buildRealtimeSquareOdds]
  rw [he]

/-- Witness for C9: the theorem applied at an input whose row labels are the
empty array. -/
theorem realtime_invalid_labels_throw_witness :
    ∃ e, Realtime.buildRealtimeSquareOdds
      { exp := fun _ => 0, log := fun _ => 0, cos := fun _ => 0,
        sqrt := fun _ => 0, pi := 0 }
      "2026-02-08T23:30:00.000Z"
      { baseModel :=
          { boardPercentages := fun _ _ => 1
            digitProbabilities := createUniformDigitMatrix
            generatedAt := "base"
            sourceMode := SquareOddsSourceMode.full
            sourcesUsed := [SquareOddsComputationSource.nflverse_games]
            warnings := []
            expectedHomePoints := 23
            expectedAwayPoints := 21 }
        snapshot :=
          { eventId := "401547417"
            fetchedAt := "2026-02-08T23:29:58.000Z"
            status := LiveGameStatus.final
            statusDetail := "Final"
            homeTeamCode := "SEA"
            awayTeamCode := "NE"
            homeTeamName := "Seahawks"
            awayTeamName := "Patriots"
            homeScore := 14
            awayScore := 10
            clock := { period := 4, displayClock := "0:00",
                       secondsRemainingInPeriod := some 0,
                       secondsRemainingGame := some 0 }
            plays := []
            sentiment := { home := 0, away := 0, neutral := 1 } }
        rowLabels := []
        colLabels := [0, 1, 2, 3, 4, 5, 6, 7, 8, 9] } = Except.error e :=
  realtime_invalid_labels_throw _ _ _ (by decide)

/-- Witness board model, snapshot and input shared by the realtime claims
below (a finished game, 14-10). -/
def cBaseModel : SquareOddsComputationResult :=
  { boardPercentages := fun _ _ => 1
    digitProbabilities := createUniformDigitMatrix
    generatedAt := "base"
    sourceMode := SquareOddsSourceMode.full
    sourcesUsed := [SquareOddsComputationSource.nflverse_games]
    warnings := []
    expectedHomePoints := 23
    expectedAwayPoints := 21 }

def cSnapshotFinal : LiveGameSnapshot :=
  { eventId := "401547417"
    fetchedAt := "2026-02-08T23:29:58.000Z"
    status := LiveGameStatus.final
    statusDetail := "Final"
    homeTeamCode := "SEA"
    awayTeamCode := "NE"
    homeTeamName := "Seahawks"
    awayTeamName := "Patriots"
    homeScore := 14
    awayScore := 10
    clock := { period := 4, displayClock := "0:00",
               secondsRemainingInPeriod := some 0, secondsRemainingGame := some 0 }
    plays := []
    sentiment := { home := 0, away := 0, neutral := 1 } }

def idLabels : List ℚ := [0, 1, 2, 3, 4, 5, 6, 7, 8, 9]

def cRealtimeInput : Realtime.BuildRealtimeSquareOddsInput :=
  { baseModel := cBaseModel
    snapshot := cSnapshotFinal
    rowLabels := idLabels
    colLabels := idLabels }

/-- A concrete `JsMath` instance (any instance works for the theorems; this
one makes concrete evaluation cheap). -/
def F0 : JsMath :=
  { exp := fun _ => 0, log := fun _ => 0, cos := fun _ => 0, sqrt := fun _ => 0, pi := 0 }

/-- Claim C3: for a final or postponed snapshot, the engine's pre-blend live
matrix is the deterministic matrix with exactly one nonzero cell — value `1`
at row `homeScore mod 10`, column `awayScore mod 10` — the live blend weight
is `1`, and the returned expected points equal the snapshot's scores exactly. -/
theorem realtime_final_spec (F : JsMath) (now : String)
    (input : Realtime.BuildRealtimeSquareOddsInput)
    (hstatus : input.snapshot.status = LiveGameStatus.final ∨
               input.snapshot.status = LiveGameStatus.postponed)
    (hr : validLabels input.rowLabels) (hc : validLabels input.colLabels) :
    (Realtime.realtimeLiveParts F input.baseModel input.snapshot
        (Realtime.buildFeatureVector F input.snapshot)).liveBlendWeight = 1 ∧
    (Realtime.realtimeLiveParts F input.baseModel input.snapshot
        (Realtime.buildFeatureVector F input.snapshot)).liveDigitMatrix =
      Realtime.buildDeterministicFinalMatrix input.snapshot.homeScore
        input.snapshot.awayScore ∧
    Realtime.buildDeterministicFinalMatrix input.snapshot.homeScore input.snapshot.awayScore
      (toDigit input.snapshot.homeScore) (toDigit input.snapshot.awayScore) = 1 ∧
    (∀ r c, Realtime.buildDeterministicFinalMatrix input.snapshot.homeScore
        input.snapshot.awayScore r c ≠ 0 →
      r = toDigit input.snapshot.homeScore ∧ c = toDigit input.snapshot.awayScore) ∧
    (toDigit input.snapshot.homeScore).val = (input.snapshot.homeScore % 10).toNat ∧
    (toDigit input.snapshot.awayScore).val = (input.snapshot.awayScore % 10).toNat ∧
    ∃ res, Realtime.buildRealtimeSquareOdds F now input = Except.ok res ∧
      res.expectedHomePoints = (input.snapshot.homeScore : ℚ) ∧
      res.expectedAwayPoints = (input.snapshot.awayScore : ℚ) := by
  have hparts := realtimeLiveParts_final F input.baseModel input.snapshot
    (Realtime.buildFeatureVector F input.snapshot) hstatus
  refine ⟨by rw [hparts], by rw [hparts], ?_, ?_, toDigit_val_emod _, toDigit_val_emod _, ?_⟩
  · unfold Realtime.buildDeterministicFinalMatrix
    rw [if_pos ⟨rfl, rfl⟩]
  · intro r c hne
    unfold Realtime.buildDeterministicFinalMatrix at hne
    by_cases hrc : r = toDigit input.snapshot.homeScore ∧ c = toDigit input.snapshot.awayScore
    · exact hrc
    · rw [if_neg hrc] at hne
      exact absurd rfl hne
  · simp only [Realtime.buildRealtimeSquareOdds]
    rw [realtime_mapDigit_ok _ _ _ hr hc]
    refine ⟨_, rfl, ?_, ?_⟩
    · show (if (999 : ℚ) / 1000 ≤ (Realtime.realtimeLiveParts F input.baseModel input.snapshot
          (Realtime.buildFeatureVector F input.snapshot)).liveBlendWeight then
          ((input.snapshot.homeScore : ℤ) : ℚ) else _) = _
      rw [hparts]
      norm_num
    · show (if (999 : ℚ) / 1000 ≤ (Realtime.realtimeLiveParts F input.baseModel input.snapshot
          (Realtime.buildFeatureVector F input.snapshot)).liveBlendWeight then
          ((input.snapshot.awayScore : ℤ) : ℚ) else _) = _
      rw [hparts]
      norm_num

/-- Witness for C3: the theorem applied at the concrete 14-10 final snapshot
with identity labels. -/
theorem realtime_final_spec_witness :
    (Realtime.realtimeLiveParts F0 cBaseModel cSnapshotFinal
        (Realtime.buildFeatureVector F0 cSnapshotFinal)).liveBlendWeight = 1 ∧
    ∃ res, Realtime.buildRealtimeSquareOdds F0 "2026-02-08T23:30:00.000Z" cRealtimeInput =
        Except.ok res ∧
      res.expectedHomePoints = ((14 : ℤ) : ℚ) ∧ res.expectedAwayPoints = ((10 : ℤ) : ℚ) := by
  have h := realtime_final_spec F0 "2026-02-08T23:30:00.000Z" cRealtimeInput
    (Or.inl rfl) (by decide) (by decide)
  exact ⟨h.1, h.2.2.2.2.2.2⟩

/-- Claim C10: every result of `buildRealtimeSquareOdds` preserves the base
model's metadata: `sourceMode` is unchanged, `sourcesUsed` contains every base
source plus the three live sources, and `warnings` is exactly the base list
followed by the single pregame warning when (and only when) the snapshot is
pregame. -/
theorem realtime_metadata_spec (F : JsMath) (now : String)
    (input : Realtime.BuildRealtimeSquareOddsInput)
    (hr : validLabels input.rowLabels) (hc : validLabels input.colLabels) :
    ∃ r, Realtime.buildRealtimeSquareOdds F now input = Except.ok r ∧
      r.sourceMode = input.baseModel.sourceMode ∧
      (∀ s ∈ input.baseModel.sourcesUsed, s ∈ r.sourcesUsed) ∧
      SquareOddsComputationSource.espn_live_scoreboard ∈ r.sourcesUsed ∧
      SquareOddsComputationSource.espn_live_summary ∈ r.sourcesUsed ∧
      SquareOddsComputationSource.live_commentary_sentiment ∈ r.sourcesUsed ∧
      r.warnings = input.baseModel.warnings ++
        (if input.snapshot.status = LiveGameStatus.pregame
         then [Realtime.pregameWarning] else []) := by
  simp only [Realtime.buildRealtimeSquareOdds]
  rw [realtime_mapDigit_ok _ _ _ hr hc]
  refine ⟨_, rfl, rfl, ?_, ?_, ?_, ?_, rfl⟩
  · intro s hs
    exact (appendUniqueSources_mem _ _ s).mpr (Or.inl hs)
  · exact (appendUniqueSources_mem _ _ _).mpr (Or.inr (by simp))
  · exact (appendUniqueSources_mem _ _ _).mpr (Or.inr (by simp))
  · exact (appendUniqueSources_mem _ _ _).mpr (Or.inr (by simp))

/-- Witness for C10: the theorem applied at the concrete final snapshot. -/
theorem realtime_metadata_spec_witness :
    ∃ r, Realtime.buildRealtimeSquareOdds F0 "2026-02-08T23:30:00.000Z" cRealtimeInput =
        Except.ok r ∧
      r.sourceMode = SquareOddsSourceMode.full ∧
      SquareOddsComputationSource.nflverse_games ∈ r.sourcesUsed ∧
      SquareOddsComputationSource.espn_live_scoreboard ∈ r.sourcesUsed ∧
      r.warnings = [] := by
  obtain ⟨r, hr, hmode, hbase, h1, _, _, hw⟩ :=
    realtime_metadata_spec F0 "2026-02-08T23:30:00.000Z" cRealtimeInput
      (by decide) (by decide)
  refine ⟨r, hr, hmode, hbase _ (by decide), h1, ?_⟩
  rw [hw]
  rfl

/-- The result with its `generatedAt` timestamp blanked, used to state what
"every field except the timestamp" means. -/
def eraseGeneratedAt (r : RealtimeSquareOddsComputationResult) :
    RealtimeSquareOddsComputationResult :=
  { r with generatedAt := "" }

/-- Amended claim C1: `buildRealtimeSquareOdds` is a pure function of the base
model, labels, snapshot and invocation timestamp; two invocations on
byte-identical inputs agree on every field except `generatedAt`, which records
the wall-clock `new Date().toISOString()` of the call (and two invocations at
the same timestamp agree on every field). -/
theorem realtime_determinism (F : JsMath) (input : Realtime.BuildRealtimeSquareOddsInput)
    (now1 now2 : String) :
    (now1 = now2 → Realtime.buildRealtimeSquareOdds F now1 input =
      Realtime.buildRealtimeSquareOdds F now2 input) ∧
    Except.map eraseGeneratedAt (Realtime.buildRealtimeSquareOdds F now1 input) =
      Except.map eraseGeneratedAt (Realtime.buildRealtimeSquareOdds F now2 input) := by
  refine ⟨fun h => by rw [h], ?_⟩
  by_cases hv : validLabels input.rowLabels ∧ validLabels input.colLabels
  · simp only [Realtime.buildRealtimeSquareOdds]
    rw [realtime_mapDigit_ok _ _ _ hv.1 hv.2]
    rfl
  · obtain ⟨e, he⟩ := realtime_mapDigit_error
      (Realtime.blendMatrices input.baseModel.digitProbabilities
        (Realtime.realtimeLiveParts F input.baseModel input.snapshot
          (Realtime.buildFeatureVector F input.snapshot)).liveDigitMatrix
        (Realtime.realtimeLiveParts F input.baseModel input.snapshot
          (Realtime.buildFeatureVector F input.snapshot)).liveBlendWeight)
      input.rowLabels input.colLabels hv
    simp only [Realtime.buildRealtimeSquareOdds]
    rw [he]

/-- Witness for the amended C1 at a concrete input and equal timestamps. -/
theorem realtime_determinism_witness :
    Realtime.buildRealtimeSquareOdds F0 "2026-02-08T23:30:00.000Z" cRealtimeInput =
      Realtime.buildRealtimeSquareOdds F0 "2026-02-08T23:30:00.000Z" cRealtimeInput :=
  (realtime_determinism F0 cRealtimeInput _ _).1 rfl

lemma buildRealtime_generatedAt (F : JsMath) (now : String)
    (input : Realtime.BuildRealtimeSquareOddsInput)
    (hr : validLabels input.rowLabels) (hc : validLabels input.colLabels) :
    Except.map (fun r => r.generatedAt) (Realtime.buildRealtimeSquareOdds F now input) =
      Except.ok now := by
  simp only [Realtime.buildRealtimeSquareOdds]
  rw [realtime_mapDigit_ok _ _ _ hr hc]
  rfl

/-- Counterexample to C1 as stated: two invocations of
`buildRealtimeSquareOdds` on byte-identical base model, labels and snapshot
but at different wall-clock instants produce results that are NOT equal on
every field — `generatedAt` records the invocation timestamp. -/
theorem realtime_determinism_counterexample :
    Realtime.buildRealtimeSquareOdds F0 "2026-02-08T23:30:00.000Z" cRealtimeInput ≠
      Realtime.buildRealtimeSquareOdds F0 "2026-02-08T23:30:00.001Z" cRealtimeInput := by
  intro h
  have h1 := buildRealtime_generatedAt F0 "2026-02-08T23:30:00.000Z" cRealtimeInput
    (by decide) (by decide)
  have h2 := buildRealtime_generatedAt F0 "2026-02-08T23:30:00.001Z" cRealtimeInput
    (by decide) (by decide)
  have hc := congrArg (Except.map fun r => r.generatedAt) h
  rw [h1, h2] at hc
  simp only [Except.ok.injEq] at hc
  exact absurd hc (by decide)

/-- `Team` of types.ts. -/
structure Team where
  id : String
  name : String
  color : String

/-- `NFL_TEAMS` of constants.ts (all 32 teams). -/
def NFL_TEAMS : List Team :=
  [⟨"ARI", "Cardinals", "#97233F"⟩,
   ⟨"ATL", "Falcons", "#A71930"⟩,
   ⟨"BAL", "Ravens", "#241773"⟩,
   ⟨"BUF", "Bills", "#00338D"⟩,
   ⟨"CAR", "Panthers", "#0085CA"⟩,
   ⟨"CHI", "Bears", "#0B162A"⟩,
   ⟨"CIN", "Bengals", "#FB4F14"⟩,
   ⟨"CLE", "Browns", "#311D00"⟩,
   ⟨"DAL", "Cowboys", "#003594"⟩,
   ⟨"DEN", "Broncos", "#FB4F14"⟩,
   ⟨"DET", "Lions", "#0076B6"⟩,
   ⟨"GB", "Packers", "#203731"⟩,
   ⟨"HOU", "Texans", "#03202F"⟩,
   ⟨"IND", "Colts", "#002C5F"⟩,
   ⟨"JAX", "Jaguars", "#006778"⟩,
   ⟨"KC", "Chiefs", "#E31837"⟩,
   ⟨"LV", "Raiders", "#000000"⟩,
   ⟨"LAC", "Chargers", "#0080C6"⟩,
   ⟨"LAR", "Rams", "#003594"⟩,
   ⟨"MIA", "Dolphins", "#008E97"⟩,
   ⟨"MIN", "Vikings", "#4F2683"⟩,
   ⟨"NE", "Patriots", "#002244"⟩,
   ⟨"NO", "Saints", "#D3BC8D"⟩,
   ⟨"NYG", "Giants", "#0B2265"⟩,
   ⟨"NYJ", "Jets", "#125740"⟩,
   ⟨"PHI", "Eagles", "#004C54"⟩,
   ⟨"PIT", "Steelers", "#FFB612"⟩,
   ⟨"SF", "49ers", "#AA0000"⟩,
   ⟨"SEA", "Seahawks", "#002244"⟩,
   ⟨"TB", "Buccaneers", "#D50A0A"⟩,
   ⟨"TEN", "Titans", "#0C2340"⟩,
   ⟨"WAS", "Commanders", "#5A1414"⟩]

namespace OddsService

/-- `normalizeText` of squareOddsService.ts: lower-case, replace every run of
characters outside `[a-z0-9 ]` by a space, collapse whitespace runs, trim.
The net effect of the chain is "maximal lower-case alphanumeric runs joined by
single spaces", which is how it is modelled (reusing the run extraction of the
sentiment scorer, whose `normalizeText` has the same net semantics). -/
def normalizeText (value : String) : String :=
  String.intercalate " "
    ((Sentiment.alnumRunsAux (value.data.map Char.toLower) []).map String.mk)

/-- `findTeamByNameOrCode` (lines 248-256): exact id match, then exact name
match, then suffix match on the name. -/
def findTeamByNameOrCode (teamNameOrCode : String) : Option Team :=
  let normalized := normalizeText teamNameOrCode
  match NFL_TEAMS.find? (fun team => normalizeText team.id == normalized) with
  | some t => some t
  | none =>
    match NFL_TEAMS.find? (fun team => normalizeText team.name == normalized) with
    | some t => some t
    | none =>
      NFL_TEAMS.find? (fun team => (normalizeText team.name).data.isSuffixOf normalized.data)

/-- `resolveTeamCode` (lines 258-262): the only `throw` that escapes
`buildSquareOdds`. -/
def resolveTeamCode (teamNameOrCode : String) : Except String String :=
  match findTeamByNameOrCode teamNameOrCode with
  | some matched => Except.ok matched.id
  | none => Except.error ("Unsupported team name or code: " ++ teamNameOrCode)

/-- `TeamContext` of squareOddsService.ts. -/
structure TeamContext where
  offenseDigitDist : Fin 10 → ℚ
  defenseDigitDist : Fin 10 → ℚ
  avgPointsFor : ℚ
  avgPointsAllowed : ℚ
  sampleSize : ℕ

/-- `EspnTeamDescriptor`. -/
structure EspnTeamDescriptor where
  id : String
  abbreviation : String
  displayName : String
  shortDisplayName : String
  nickname : String

/-- `EspnTeamStats`. -/
structure EspnTeamStats where
  pointsPerGame : Option ℚ
  thirdDownPct : Option ℚ
  redZonePct : Option ℚ
  turnoverDiff : Option ℚ

/-- `SportsDbRecentForm`. -/
structure SportsDbRecentForm where
  avgScored : ℚ
  avgAllowed : ℚ
  offenseDigitDist : Fin 10 → ℚ
  defenseDigitDist : Fin 10 → ℚ
  sampleSize : ℕ

/-- `GameRecord` (rows of the games CSV after parsing). -/
structure GameRecord where
  season : ℤ
  gameday : String
  awayTeam : String
  awayScore : ℤ
  homeTeam : String
  homeScore : ℤ
  totalLine : Option ℚ
  spreadLine : Option ℚ

/-- `CachedDigitModel`. -/
structure CachedDigitModel where
  digitProbabilities : DigitProbabilityMatrix
  generatedAt : String
  sourceMode : SquareOddsSourceMode
  sourcesUsed : List SquareOddsComputationSource
  warnings : List String
  expectedHomePoints : ℚ
  expectedAwayPoints : ℚ

/-- The external world as `buildSquareOdds` observes it: the settled outcome
of each network loader (`loadGames`, `loadClosingMoneylines`, `getEspnTeams`,
`getEspnTeamStats`, `getSportsDbRecentForm`, each of which is fetch + parse
plumbing) and the `readCachedEntry` result for the matchup's cache key.  A
failed promise is `Except.error`/`none`; theorems below quantify over every
oracle. -/
structure DataOracle where
  games : Except String (List GameRecord)
  closingLines : Except String (List RawLineRow)
  espnTeams : Except String (List (String × EspnTeamDescriptor))
  espnTeamStats : String → Option EspnTeamStats
  sportsDbRecentForm : String → List String → Option SportsDbRecentForm
  cachedModel : Option CachedDigitModel

/-- `loadClosingMoneylines` (lines 414-451) applied to the oracle's CSV rows. -/
def loadClosingMoneylines (oracle : DataOracle) : Except String (List MoneylineRecord) :=
  oracle.closingLines.map fun rows => rows.filterMap rowToMoneyline

/-- `getEspnTeamStats` (lines 657-684): `null` when the teams map failed to
load or has no entry for the code; otherwise the stats fetch outcome. -/
def getEspnTeamStats (oracle : DataOracle) (teamCode : String) : Option EspnTeamStats :=
  match oracle.espnTeams with
  | Except.error _ => none
  | Except.ok teams =>
    match teams.find? (fun p => p.1 == teamCode) with
    | none => none
    | some _ => oracle.espnTeamStats teamCode

/-- `getLatestSeason` (lines 453-454). -/
def getLatestSeason (games : List GameRecord) : ℤ :=
  games.foldl (fun maxSeason game => max maxSeason game.season) 0

/-- `buildBaselineMatrix` (lines 456-486): add-one-smoothed recency-weighted
counts over the last 15 seasons, then normalized; also the raw sample size. -/
def buildBaselineMatrix (games : List GameRecord) (latestSeason : ℤ) :
    DigitProbabilityMatrix × ℕ :=
  let startSeason := max 1999 (latestSeason - 15)
  let acc := games.foldl
    (fun (acc : DigitProbabilityMatrix × ℕ) game =>
      if game.season < startSeason then acc
      else if game.homeScore < 0 ∨ game.awayScore < 0 then acc
      else
        let homeDigit := toDigit game.homeScore
        let awayDigit := toDigit game.awayScore
        let age := (latestSeason : ℚ) - (game.season : ℚ)
        let recencyWeight := clamp (11 / 10 - age * (5 / 100)) (35 / 100) (11 / 10)
        (fun r c => if r = homeDigit ∧ c = awayDigit then acc.1 r c + recencyWeight
                    else acc.1 r c,
         acc.2 + 1))
    (fun _ _ => 1, 0)
  (normalizeMatrix acc.1, acc.2)

/-- The mutable aggregates of `buildTeamContext`'s `forEach`. -/
structure TeamContextAccum where
  offenseCounts : Fin 10 → ℚ
  defenseCounts : Fin 10 → ℚ
  weightedPointsFor : ℚ
  weightedPointsAgainst : ℚ
  totalWeight : ℚ

def teamContextStep (F : JsMath) (teamCode : String) (acc : TeamContextAccum)
    (entry : ℕ × GameRecord) : TeamContextAccum :=
  let index := entry.1
  let game := entry.2
  let pointsFor := if game.homeTeam == teamCode then game.homeScore else game.awayScore
  let pointsAllowed := if game.homeTeam == teamCode then game.awayScore else game.homeScore
  if pointsFor < 0 ∨ pointsAllowed < 0 then acc
  else
    let recencyWeight := F.exp (-(index : ℚ) / 18)
    { offenseCounts := fun i => if i = toDigit pointsFor then acc.offenseCounts i + recencyWeight
                                else acc.offenseCounts i
      defenseCounts := fun i => if i = toDigit pointsAllowed then acc.defenseCounts i + recencyWeight
                                else acc.defenseCounts i
      weightedPointsFor := acc.weightedPointsFor + (pointsFor : ℚ) * recencyWeight
      weightedPointsAgainst := acc.weightedPointsAgainst + (pointsAllowed : ℚ) * recencyWeight
      totalWeight := acc.totalWeight + recencyWeight }

/-- `buildTeamContext` (lines 488-534): the team's last ≤48 games within 6
seasons sorted by gameday descending (code-unit order stands in for
`localeCompare`; the sort is stable so the result is determined), add-one
digit histograms with `exp(-index/18)` recency weights. -/
def buildTeamContext (F : JsMath) (games : List GameRecord) (teamCode : String)
    (latestSeason : ℤ) : Option TeamContext :=
  let cutoffSeason := latestSeason - 6
  let teamGames := ((games.filter fun game =>
      decide (cutoffSeason ≤ game.season) &&
      (game.homeTeam == teamCode || game.awayTeam == teamCode)).mergeSort
    (fun a b => decide (b.gameday ≤ a.gameday))).take 48
  if teamGames.isEmpty then none
  else
    let acc := teamGames.enum.foldl (teamContextStep F teamCode)
      { offenseCounts := fun _ => 1, defenseCounts := fun _ => 1,
        weightedPointsFor := 0, weightedPointsAgainst := 0, totalWeight := 0 }
    if acc.totalWeight ≤ 0 then none
    else some
      { offenseDigitDist := normalizeVector acc.offenseCounts
        defenseDigitDist := normalizeVector acc.defenseCounts
        avgPointsFor := acc.weightedPointsFor / acc.totalWeight
        avgPointsAllowed := acc.weightedPointsAgainst / acc.totalWeight
        sampleSize := teamGames.length }

/-- `poissonDigitDistribution` (lines 536-554): discretized Poisson pmf over
scores 0..85 folded into last digits, with the unassigned tail added at
`round(lambda) % 10` (nonnegative, so `toDigit` coincides with the single
`%`), then normalized. -/
def poissonDigitDistribution (F : JsMath) (meanPoints : ℚ) : Fin 10 → ℚ :=
  let lambda := clamp meanPoints 8 55
  let start : (Fin 10 → ℚ) × ℚ :=
    (fun i => if i = (0 : Fin 10) then F.exp (-lambda) else 0, F.exp (-lambda))
  let result := (List.range' 1 85).foldl
    (fun (acc : (Fin 10 → ℚ) × ℚ) (score : ℕ) =>
      let pmf := acc.2 * (lambda / (score : ℚ))
      (fun i => if i = natDigit score then acc.1 i + pmf else acc.1 i, pmf))
    start
  let assigned := ∑ i : Fin 10, result.1 i
  let tail := max 0 (1 - assigned)
  normalizeVector fun i =>
    if i = toDigit (jsRound lambda) then result.1 i + tail else result.1 i

/-- `weightedAverage` (lines 556-578). -/
def weightedAverage (parts : List (Option ℚ × ℚ)) (fallback : ℚ) : ℚ :=
  let acc := parts.foldl
    (fun (acc : ℚ × ℚ) part =>
      match part.1 with
      | none => acc
      | some v => if part.2 ≤ 0 then acc else (acc.1 + v * part.2, acc.2 + part.2))
    (0, 0)
  if acc.2 ≤ 0 then fallback else acc.1 / acc.2

/-- `blendVectors` (lines 159-175); the `values.length !== 10` skip of the
source cannot arise in the fixed-size model. -/
def blendVectors (parts : List ((Fin 10 → ℚ) × ℚ)) : Fin 10 → ℚ :=
  let r := parts.foldl
    (fun (acc : (Fin 10 → ℚ) × ℚ) part =>
      if part.2 ≤ 0 then acc
      else (fun i => acc.1 i + part.1 i * part.2, acc.2 + part.2))
    (fun _ => 0, 0)
  if r.2 ≤ 0 then createUniformDigitDist else normalizeVector r.1

/-- `blendMatrices` of squareOddsService.ts (lines 177-195). -/
def blendMatrices (parts : List (DigitProbabilityMatrix × ℚ)) : DigitProbabilityMatrix :=
  let r := parts.foldl
    (fun (acc : DigitProbabilityMatrix × ℚ) part =>
      if part.2 ≤ 0 then acc
      else (fun x y => acc.1 x y + part.1 x y * part.2, acc.2 + part.2))
    (fun _ _ => 0, 0)
  if r.2 ≤ 0 then createUniformDigitMatrix else normalizeMatrix r.1

/-- `buildTeamDigitMatrix` (lines 789-834). -/
def buildTeamDigitMatrix (homeContext awayContext : Option TeamContext)
    (homeSportsDb awaySportsDb : Option SportsDbRecentForm) : DigitProbabilityMatrix :=
  let homeDist := blendVectors
    [((homeContext.map fun c => c.offenseDigitDist).getD createUniformDigitDist, 55 / 100),
     ((awayContext.map fun c => c.defenseDigitDist).getD createUniformDigitDist, 25 / 100),
     ((homeSportsDb.map fun s => s.offenseDigitDist).getD createUniformDigitDist, 12 / 100),
     ((awaySportsDb.map fun s => s.defenseDigitDist).getD createUniformDigitDist, 8 / 100)]
  let awayDist := blendVectors
    [((awayContext.map fun c => c.offenseDigitDist).getD createUniformDigitDist, 55 / 100),
     ((homeContext.map fun c => c.defenseDigitDist).getD createUniformDigitDist, 25 / 100),
     ((awaySportsDb.map fun s => s.offenseDigitDist).getD createUniformDigitDist, 12 / 100),
     ((homeSportsDb.map fun s => s.defenseDigitDist).getD createUniformDigitDist, 8 / 100)]
  outerProduct homeDist awayDist

/-- `calculateLeagueAveragePoints` (lines 836-852). -/
def calculateLeagueAveragePoints (games : List GameRecord) (latestSeason : ℤ) : ℚ :=
  let cutoff := latestSeason - 3
  let acc := games.foldl
    (fun (acc : ℚ × ℕ) game =>
      if game.season < cutoff then acc
      else (acc.1 + (game.homeScore : ℚ) + (game.awayScore : ℚ), acc.2 + 2))
    (0, 0)
  if acc.2 = 0 then 22 else acc.1 / (acc.2 : ℚ)

/-- `calculateTeamMarketImpliedProb` (lines 854-874). -/
def calculateTeamMarketImpliedProb (moneylines : List MoneylineRecord)
    (teamCode : String) (latestSeason : ℤ) : Option ℚ :=
  let recentRows := moneylines.filter fun entry =>
    entry.side == teamCode && decide (latestSeason - 8 ≤ entry.season)
  if recentRows.isEmpty then none
  else
    let acc := recentRows.foldl
      (fun (acc : ℚ × ℚ) entry =>
        let weight := clamp (1 + ((entry.season : ℚ) - ((latestSeason : ℚ) - 8)) * (12 / 100))
          (4 / 10) (22 / 10)
        (acc.1 + entry.impliedProbability * weight, acc.2 + weight))
      (0, 0)
    if acc.2 ≤ 0 then none else some (acc.1 / acc.2)

/-- `estimateExpectedPoints` (lines 876-911). -/
def estimateExpectedPoints (teamContext opponentContext : Option TeamContext)
    (teamEspn opponentEspn : Option EspnTeamStats)
    (teamSportsDb : Option SportsDbRecentForm) (leagueAvg : ℚ) : ℚ :=
  let expected0 := weightedAverage
    [(teamContext.map fun c => c.avgPointsFor, 42 / 100),
     (opponentContext.map fun c => c.avgPointsAllowed, 28 / 100),
     (teamEspn.bind fun e => e.pointsPerGame, 15 / 100),
     (teamSportsDb.map fun s => s.avgScored, 1 / 10),
     (some leagueAvg, 5 / 100)]
    leagueAvg
  let thirdDownEdge := (((teamEspn.bind fun e => e.thirdDownPct).getD 0) -
    ((opponentEspn.bind fun e => e.thirdDownPct).getD 0)) / 100
  let expected1 := expected0 + thirdDownEdge * (22 / 10)
  let redZoneEdge := (((teamEspn.bind fun e => e.redZonePct).getD 0) -
    ((opponentEspn.bind fun e => e.redZonePct).getD 0)) / 100
  let expected2 := expected1 + redZoneEdge * (16 / 10)
  let turnoverEdge := ((teamEspn.bind fun e => e.turnoverDiff).getD 0) -
    ((opponentEspn.bind fun e => e.turnoverDiff).getD 0)
  let expected3 := expected2 + turnoverEdge * (12 / 100)
  let expected4 :=
    match teamSportsDb, teamContext with
    | some sdb, some ctx => expected3 + (sdb.avgScored - ctx.avgPointsFor) * (12 / 100)
    | _, _ => expected3
  clamp expected4 10 45

/-- `buildSimulationMatrix` of squareOddsService.ts (lines 913-920). -/
def buildSimulationMatrix (F : JsMath) (homeExpectedPoints awayExpectedPoints : ℚ) :
    DigitProbabilityMatrix :=
  outerProduct (poissonDigitDistribution F homeExpectedPoints)
    (poissonDigitDistribution F awayExpectedPoints)

/-- `buildFallbackModel` (lines 922-941); note it maps the digit matrix onto
the caller's labels WITHOUT `finalizeBoardPercentages`, and that mapping can
itself throw. -/
def buildFallbackModel (F : JsMath) (now : String) (rowLabels colLabels : List ℚ) :
    Except String SquareOddsComputationResult :=
  let digitProbabilities := buildSimulationMatrix F 23 21
  match mapDigitMatrixToBoard digitProbabilities rowLabels colLabels with
  | Except.error e => Except.error e
  | Except.ok board =>
    Except.ok
      { boardPercentages := board
        digitProbabilities := digitProbabilities
        generatedAt := now
        sourceMode := SquareOddsSourceMode.baseline
        sourcesUsed := [SquareOddsComputationSource.fallback_model]
        warnings := ["Live sports data sources were unavailable. Using a mathematically generated baseline model."]
        expectedHomePoints := 23
        expectedAwayPoints := 21 }

/-- The display-name candidate list built inline in `buildSmartDigitModel`
(lines 1036-1058). -/
def displayCandidates (espnTeams : List (String × EspnTeamDescriptor))
    (teamCode : String) : List String :=
  let descriptors := (espnTeams.find? (fun p => p.1 == teamCode)).map fun p => p.2
  let nickname :=
    match NFL_TEAMS.find? (fun team => team.id == teamCode) with
    | some t => t.name
    | none => teamCode
  let candidates :=
    [descriptors.map fun d => d.displayName,
     descriptors.map fun d => d.shortDisplayName,
     descriptors.map fun d => d.nickname,
     some nickname]
  jsSetDedup ((candidates.filterMap id).filter fun v => decide (jsTrim v ≠ ""))

/-- `buildSmartDigitModel` (lines 981-1167), with every network loader read
from the oracle; the `warnings` and `sourcesUsed` accumulators are threaded in
the source's push order (the two `Promise.all` catch callbacks are ordered as
written; their relative order is the only scheduler-dependent detail).
`writeCachedEntry` is a cache side effect outside the returned value and is
not modelled. -/
def buildSmartDigitModel (F : JsMath) (oracle : DataOracle) (now : String)
    (homeTeamCode awayTeamCode : String) : CachedDigitModel :=
  match oracle.games with
  | Except.error _ =>
    { digitProbabilities := buildSimulationMatrix F 23 21
      generatedAt := now
      sourceMode := SquareOddsSourceMode.baseline
      sourcesUsed := [SquareOddsComputationSource.fallback_model]
      warnings := ["Unable to load NFL historical games dataset. Falling back to baseline simulation only."]
      expectedHomePoints := 23
      expectedAwayPoints := 21 }
  | Except.ok games =>
    let sources0 : List SquareOddsComputationSource :=
      [SquareOddsComputationSource.nflverse_games]
    let latestSeason := getLatestSeason games
    let leagueAvgPoints := calculateLeagueAveragePoints games latestSeason
    let baseline := buildBaselineMatrix games latestSeason
    let homeContext := buildTeamContext F games homeTeamCode latestSeason
    let awayContext := buildTeamContext F games awayTeamCode latestSeason
    let warnings0 : List String :=
      if homeContext.isNone || awayContext.isNone then
        ["Limited team history found for one or both teams. Probabilities rely more heavily on league baseline."]
      else []
    let moneylines : List MoneylineRecord :=
      match loadClosingMoneylines oracle with
      | Except.ok rows => rows
      | Except.error _ => []
    let sources1 :=
      match loadClosingMoneylines oracle with
      | Except.ok _ => sources0 ++ [SquareOddsComputationSource.nflverse_closing_lines]
      | Except.error _ => sources0
    let warnings1 :=
      match loadClosingMoneylines oracle with
      | Except.ok _ => warnings0
      | Except.error _ => warnings0 ++ ["Moneyline data could not be loaded. Market adjustments disabled."]
    let espnTeams :=
      match oracle.espnTeams with
      | Except.ok teams => teams
      | Except.error _ => []
    let warnings2 :=
      match oracle.espnTeams with
      | Except.ok _ => warnings1
      | Except.error _ => warnings1 ++ ["ESPN team metadata unavailable. Team-level API stats reduced."]
    let homeDisplayCandidates := displayCandidates espnTeams homeTeamCode
    let awayDisplayCandidates := displayCandidates espnTeams awayTeamCode
    let homeEspnStats := getEspnTeamStats oracle homeTeamCode
    let awayEspnStats := getEspnTeamStats oracle awayTeamCode
    let homeSportsDbRecent := oracle.sportsDbRecentForm homeTeamCode homeDisplayCandidates
    let awaySportsDbRecent := oracle.sportsDbRecentForm awayTeamCode awayDisplayCandidates
    let sources2 :=
      if homeEspnStats.isSome || awayEspnStats.isSome then
        sources1 ++ [SquareOddsComputationSource.espn_team_stats]
      else sources1
    let warnings3 :=
      if homeEspnStats.isSome || awayEspnStats.isSome then warnings2
      else warnings2 ++ ["ESPN team stats unavailable. Expected-points model uses historical-only inputs."]
    let sources3 :=
      if homeSportsDbRecent.isSome || awaySportsDbRecent.isSome then
        sources2 ++ [SquareOddsComputationSource.thesportsdb_recent_form]
      else sources2
    let warnings4 :=
      if homeSportsDbRecent.isSome || awaySportsDbRecent.isSome then warnings3
      else warnings3 ++ ["Recent form feed unavailable. Team trend model uses historical games only."]
    let homeMarketProb := calculateTeamMarketImpliedProb moneylines homeTeamCode latestSeason
    let awayMarketProb := calculateTeamMarketImpliedProb moneylines awayTeamCode latestSeason
    let teamMatrix := buildTeamDigitMatrix homeContext awayContext
      homeSportsDbRecent awaySportsDbRecent
    let expectedHomePoints0 := estimateExpectedPoints homeContext awayContext
      homeEspnStats awayEspnStats homeSportsDbRecent leagueAvgPoints
    let expectedAwayPoints0 := estimateExpectedPoints awayContext homeContext
      awayEspnStats homeEspnStats awaySportsDbRecent leagueAvgPoints
    let expectedHomePoints :=
      match homeMarketProb, awayMarketProb with
      | some hp, some ap => clamp (expectedHomePoints0 + (hp - ap) * (45 / 10)) 10 45
      | _, _ => expectedHomePoints0
    let expectedAwayPoints :=
      match homeMarketProb, awayMarketProb with
      | some hp, some ap => clamp (expectedAwayPoints0 - (hp - ap) * (45 / 10)) 10 45
      | _, _ => expectedAwayPoints0
    let simulationMatrix := buildSimulationMatrix F expectedHomePoints expectedAwayPoints
    let baselineWeight0 : ℚ := 45 / 100
    let teamWeight0 : ℚ := 35 / 100
    let simWeight0 : ℚ := 2 / 10
    let baselineWeight1 :=
      if homeEspnStats.isNone && awayEspnStats.isNone then baselineWeight0 + 5 / 100
      else baselineWeight0
    let simWeight1 :=
      if homeEspnStats.isNone && awayEspnStats.isNone then simWeight0 - 5 / 100
      else simWeight0
    let baselineWeight2 :=
      if homeSportsDbRecent.isNone && awaySportsDbRecent.isNone then baselineWeight1 + 3 / 100
      else baselineWeight1
    let teamWeight1 :=
      if homeSportsDbRecent.isNone && awaySportsDbRecent.isNone then teamWeight0 - 3 / 100
      else teamWeight0
    let baselineWeight3 :=
      if homeMarketProb.isNone || awayMarketProb.isNone then baselineWeight2 + 2 / 100
      else baselineWeight2
    let simWeight2 :=
      if homeMarketProb.isNone || awayMarketProb.isNone then simWeight1 - 2 / 100
      else simWeight1
    let baselineWeight := clamp baselineWeight3 (3 / 10) (7 / 10)
    let teamWeight := clamp teamWeight1 (15 / 100) (45 / 100)
    let simWeight := clamp simWeight2 (8 / 100) (35 / 100)
    let totalWeight := baselineWeight + teamWeight + simWeight
    let digitProbabilities := blendMatrices
      [(baseline.1, baselineWeight / totalWeight),
       (teamMatrix, teamWeight / totalWeight),
       (simulationMatrix, simWeight / totalWeight)]
    let sourceMode :=
      if 3 ≤ sources3.length then SquareOddsSourceMode.full
      else SquareOddsSourceMode.baseline
    { digitProbabilities := digitProbabilities
      generatedAt := now
      sourceMode := sourceMode
      sourcesUsed := sources3
      warnings := warnings4
      expectedHomePoints := expectedHomePoints
      expectedAwayPoints := expectedAwayPoints }

/-- `BuildSquareOddsInput`. -/
structure BuildSquareOddsInput where
  homeTeamName : String
  awayTeamName : String
  rowLabels : List ℚ
  colLabels : List ℚ

/-- `buildSquareOdds` (lines 1169-1223): resolve team codes (throwing before
anything else), then inside the `try` serve from cache or compute, mapping the
digit matrix onto the caller's labels; the `catch` falls back to
`buildFallbackModel` with the error message appended to its warnings — and the
fallback's own label mapping can rethrow. -/
def buildSquareOdds (F : JsMath) (oracle : DataOracle) (now : String)
    (input : BuildSquareOddsInput) : Except String SquareOddsComputationResult :=
  match resolveTeamCode input.homeTeamName with
  | Except.error e => Except.error e
  | Except.ok homeTeamCode =>
    match resolveTeamCode input.awayTeamName with
    | Except.error e => Except.error e
    | Except.ok awayTeamCode =>
      let attempt : Except String SquareOddsComputationResult :=
        match oracle.cachedModel with
        | some cached =>
          match mapDigitMatrixToBoard cached.digitProbabilities input.rowLabels input.colLabels with
          | Except.error e => Except.error e
          | Except.ok mapped =>
            Except.ok
              { boardPercentages := finalizeBoardPercentages mapped
                digitProbabilities := cached.digitProbabilities
                generatedAt := cached.generatedAt
                sourceMode := cached.sourceMode
                sourcesUsed := cached.sourcesUsed
                warnings := cached.warnings
                expectedHomePoints := cached.expectedHomePoints
                expectedAwayPoints := cached.expectedAwayPoints }
        | none =>
          let computed := buildSmartDigitModel F oracle now homeTeamCode awayTeamCode
          match mapDigitMatrixToBoard computed.digitProbabilities input.rowLabels input.colLabels with
          | Except.error e => Except.error e
          | Except.ok mapped =>
            Except.ok
              { boardPercentages := finalizeBoardPercentages mapped
                digitProbabilities := computed.digitProbabilities
                generatedAt := computed.generatedAt
                sourceMode := computed.sourceMode
                sourcesUsed := computed.sourcesUsed
                warnings := computed.warnings
                expectedHomePoints := computed.expectedHomePoints
                expectedAwayPoints := computed.expectedAwayPoints }
      match attempt with
      | Except.ok r => Except.ok r
      | Except.error e =>
        match buildFallbackModel F now input.rowLabels input.colLabels with
        | Except.error e2 => Except.error e2
        | Except.ok fb => Except.ok { fb with warnings := fb.warnings ++ [e] }

end OddsService

lemma service_mapDigit_ok (m : DigitProbabilityMatrix) (rows cols : List ℚ)
    (hr : validLabels rows) (hc : validLabels cols) :
    OddsService.mapDigitMatrixToBoard m rows cols = Except.ok fun r c =>
      m (labelDigit (rows.getD r.val 0)) (labelDigit (cols.getD c.val 0)) * 100 :=
  mapDigitCore_ok _ _ _ m rows cols hr hc

lemma service_mapDigit_error (m : DigitProbabilityMatrix) (rows cols : List ℚ)
    (h : ¬ (validLabels rows ∧ validLabels cols)) :
    ∃ e, OddsService.mapDigitMatrixToBoard m rows cols = Except.error e :=
  mapDigitCore_error _ _ _ m rows cols h

lemma resolveTeamCode_error (name : String)
    (h : OddsService.findTeamByNameOrCode name = none) :
    OddsService.resolveTeamCode name =
      Except.error ("Unsupported team name or code: " ++ name) := by
  unfold OddsService.resolveTeamCode
  rw [h]

lemma buildSquareOdds_ok_of_valid (F : JsMath) (oracle : OddsService.DataOracle)
    (now : String) (input : OddsService.BuildSquareOddsInput) (homeCode awayCode : String)
    (hh : OddsService.resolveTeamCode input.homeTeamName = Except.ok homeCode)
    (ha : OddsService.resolveTeamCode input.awayTeamName = Except.ok awayCode)
    (hr : validLabels input.rowLabels) (hc : validLabels input.colLabels) :
    ∃ r, OddsService.buildSquareOdds F oracle now input = Except.ok r := by
  simp only [OddsService.buildSquareOdds]
  rw [hh, ha]
  dsimp only
  rcases hcache : oracle.cachedModel with _ | cached
  · dsimp only
    rw [service_mapDigit_ok _ _ _ hr hc]
    exact ⟨_, rfl⟩
  · dsimp only
    rw [service_mapDigit_ok _ _ _ hr hc]
    exact ⟨_, rfl⟩

lemma buildSquareOdds_error_of_invalid (F : JsMath) (oracle : OddsService.DataOracle)
    (now : String) (input : OddsService.BuildSquareOddsInput) (homeCode awayCode : String)
    (hh : OddsService.resolveTeamCode input.homeTeamName = Except.ok homeCode)
    (ha : OddsService.resolveTeamCode input.awayTeamName = Except.ok awayCode)
    (hlab : ¬ (validLabels input.rowLabels ∧ validLabels input.colLabels)) :
    ∃ e, OddsService.buildSquareOdds F oracle now input = Except.error e := by
  obtain ⟨e2, he2⟩ := service_mapDigit_error
    (OddsService.buildSimulationMatrix F 23 21) input.rowLabels input.colLabels hlab
  have hfb : OddsService.buildFallbackModel F now input.rowLabels input.colLabels =
      Except.error e2 := by
    simp only [OddsService.buildFallbackModel]
    rw [he2]
  simp only [OddsService.buildSquareOdds]
  rw [hh, ha]
  dsimp only
  rcases hcache : oracle.cachedModel with _ | cached
  · dsimp only
    obtain ⟨e1, he1⟩ := service_mapDigit_error
      (OddsService.buildSmartDigitModel F oracle now homeCode awayCode).digitProbabilities
      input.rowLabels input.colLabels hlab
    rw [he1, hfb]
    exact ⟨e2, rfl⟩
  · dsimp only
    obtain ⟨e1, he1⟩ := service_mapDigit_error
      cached.digitProbabilities input.rowLabels input.colLabels hlab
    rw [he1, hfb]
    exact ⟨e2, rfl⟩

/-- Amended claim C2: `buildSquareOdds` throws exactly when a team identifier
fails to resolve OR the caller's label arrays are invalid (the `catch`-branch
fallback re-runs the label mapping, so a label error rethrows from inside the
fallback); the unsupported-team error is raised before any network access —
the statement holds for EVERY oracle, with an error value independent of it —
and for resolvable teams with valid labels the call returns a result for every
oracle, so every source failure is only reflected in the result (its warnings
list), never thrown. -/
theorem buildSquareOdds_error_spec (F : JsMath) (oracle : OddsService.DataOracle)
    (now : String) (input : OddsService.BuildSquareOddsInput) :
    (OddsService.findTeamByNameOrCode input.homeTeamName = none →
      OddsService.buildSquareOdds F oracle now input =
        Except.error ("Unsupported team name or code: " ++ input.homeTeamName)) ∧
    (∀ homeCode, OddsService.resolveTeamCode input.homeTeamName = Except.ok homeCode →
      OddsService.findTeamByNameOrCode input.awayTeamName = none →
      OddsService.buildSquareOdds F oracle now input =
        Except.error ("Unsupported team name or code: " ++ input.awayTeamName)) ∧
    (∀ homeCode awayCode,
      OddsService.resolveTeamCode input.homeTeamName = Except.ok homeCode →
      OddsService.resolveTeamCode input.awayTeamName = Except.ok awayCode →
      validLabels input.rowLabels → validLabels input.colLabels →
      ∃ r, OddsService.buildSquareOdds F oracle now input = Except.ok r) ∧
    (∀ homeCode awayCode,
      OddsService.resolveTeamCode input.homeTeamName = Except.ok homeCode →
      OddsService.resolveTeamCode input.awayTeamName = Except.ok awayCode →
      ¬ (validLabels input.rowLabels ∧ validLabels input.colLabels) →
      ∃ e, OddsService.buildSquareOdds F oracle now input = Except.error e) := by
  refine ⟨?_, ?_, ?_, ?_⟩
  · intro hnone
    simp only [OddsService.buildSquareOdds]
    rw [resolveTeamCode_error _ hnone]
  · intro homeCode hh hnone
    simp only [OddsService.buildSquareOdds]
    rw [hh, resolveTeamCode_error _ hnone]
  · intro homeCode awayCode hh ha hr hc
    exact buildSquareOdds_ok_of_valid F oracle now input homeCode awayCode hh ha hr hc
  · intro homeCode awayCode hh ha hlab
    exact buildSquareOdds_error_of_invalid F oracle now input homeCode awayCode hh ha hlab

/-- An oracle in which every external source has failed and the cache is
empty (the fully offline world). -/
def cOracleEmpty : OddsService.DataOracle :=
  { games := Except.error "offline"
    closingLines := Except.error "offline"
    espnTeams := Except.error "offline"
    espnTeamStats := fun _ => none
    sportsDbRecentForm := fun _ _ => none
    cachedModel := none }

/-- Witness for the amended C2: an unsupported team fails fast with the
unsupported-team error under every-source-offline conditions, and a valid
matchup with valid labels returns a result. -/
theorem buildSquareOdds_error_spec_witness :
    OddsService.buildSquareOdds F0 cOracleEmpty "2026-02-08T12:00:00.000Z"
      { homeTeamName := "Martians", awayTeamName := "Patriots",
        rowLabels := idLabels, colLabels := idLabels } =
      Except.error "Unsupported team name or code: Martians" ∧
    ∃ r, OddsService.buildSquareOdds F0 cOracleEmpty "2026-02-08T12:00:00.000Z"
      { homeTeamName := "Seahawks", awayTeamName := "Patriots",
        rowLabels := idLabels, colLabels := idLabels } = Except.ok r := by
  constructor
  · exact (buildSquareOdds_error_spec F0 cOracleEmpty "2026-02-08T12:00:00.000Z" _).1 rfl
  · exact (buildSquareOdds_error_spec F0 cOracleEmpty "2026-02-08T12:00:00.000Z" _).2.2.1
      "SEA" "NE" rfl rfl (by decide) (by decide)

/-- Counterexample to C2 as stated: an input whose two team identifiers both
resolve on which `buildSquareOdds` nevertheless throws — the row-label array
is empty, the label mapping throws inside the `try`, and the `catch`-branch
fallback rethrows from its own label mapping. -/
theorem buildSquareOdds_counterexample :
    OddsService.resolveTeamCode "Seahawks" = Except.ok "SEA" ∧
    OddsService.resolveTeamCode "Patriots" = Except.ok "NE" ∧
    ∃ e, OddsService.buildSquareOdds F0 cOracleEmpty "2026-02-08T12:00:00.000Z"
      { homeTeamName := "Seahawks", awayTeamName := "Patriots",
        rowLabels := [], colLabels := idLabels } = Except.error e :=
  ⟨rfl, rfl,
   buildSquareOdds_error_of_invalid F0 cOracleEmpty "2026-02-08T12:00:00.000Z"
     { homeTeamName := "Seahawks", awayTeamName := "Patriots",
       rowLabels := [], colLabels := idLabels }
     "SEA" "NE" rfl rfl (by decide)⟩

end Squares
